import Mathlib

/-!
A shallow embedding of `cli/cmd/install.go` from the trident repository:
the Trident installation orchestrator.  External collaborators (the
Kubernetes client, the UCP client, the storage-backend factory) are
modelled as an oracle environment `Env`; every attempted cluster mutation
is recorded in an event trace so that frame and ordering properties can be
stated.  Machine strings, booleans and integers are embedded directly;
`time.Duration` is embedded as its underlying nanosecond count.
-/

deriving instance DecidableEq for Except

namespace Trident

/-- Kubernetes cluster flavor, from `k8s_client.Flavor*`. -/
inductive Flavor
  | kubernetes
  | openshift
deriving DecidableEq

/-- A semantic version, as compared by `client.Version().AtLeast`. -/
structure SemVer where
  major : Nat
  minor : Nat
  patch : Nat
deriving DecidableEq

/-- `v.atLeast w` embeds `v.AtLeast(w)`: lexicographic `v ≥ w`. -/
def SemVer.atLeast (v w : SemVer) : Bool :=
  (w.major < v.major) ||
    (w.major == v.major &&
      ((w.minor < v.minor) || (w.minor == v.minor && w.patch ≤ v.patch)))

/-- PVC phase, from `v1.ClaimPending / ClaimBound / ClaimLost`. -/
inductive ClaimPhase
  | pending
  | bound
  | lost
deriving DecidableEq

/-- PV phase, from `v1.VolumePending / Available / Bound / Released / Failed`. -/
inductive VolumePhase
  | pending
  | available
  | bound
  | released
  | failed
deriving DecidableEq

/-! ## Resource quantities

`resource.ParseQuantity` belongs to the external `k8s.io/apimachinery`
collaborator.  Modelled from the spec: the naming-authority size parser
accepts an optional sign, decimal digits with an optional fractional part,
and an optional decimal-SI or binary-SI magnitude suffix; any other text
is a parse error.  The parsed quantity keeps its sign, so positivity is a
property of the result, not of parsing. -/

/-- The magnitude suffixes of the quantity grammar. -/
inductive QSuffix
  | unit
  | n | u | m | k | M | G | T | P | E
  | Ki | Mi | Gi | Ti | Pi | Ei
deriving DecidableEq

/-- A parsed resource quantity: sign, integer digits, fractional digits,
magnitude suffix. -/
structure Quantity where
  neg : Bool
  intDigits : List Char
  fracDigits : List Char
  suffix : QSuffix
deriving DecidableEq

def isDigitChar (c : Char) : Bool := '0' ≤ c && c ≤ '9'

/-- Recognize a magnitude suffix. -/
def parseQSuffix : List Char → Option QSuffix
  | [] => some .unit
  | ['n'] => some .n
  | ['u'] => some .u
  | ['m'] => some .m
  | ['k'] => some .k
  | ['M'] => some .M
  | ['G'] => some .G
  | ['T'] => some .T
  | ['P'] => some .P
  | ['E'] => some .E
  | ['K', 'i'] => some .Ki
  | ['M', 'i'] => some .Mi
  | ['G', 'i'] => some .Gi
  | ['T', 'i'] => some .Ti
  | ['P', 'i'] => some .Pi
  | ['E', 'i'] => some .Ei
  | _ => none

/-- Modelled from the spec: the external quantity parser
(`resource.ParseQuantity`).  Note that a leading minus sign is accepted:
parsing succeeds for negative quantities. -/
def parseQuantity (s : String) : Option Quantity :=
  let cs := s.toList
  let signed : Bool × List Char :=
    match cs with
    | '-' :: rest => (true, rest)
    | '+' :: rest => (false, rest)
    | _ => (false, cs)
  let neg := signed.1
  let intDigits := signed.2.takeWhile isDigitChar
  let afterInt := signed.2.dropWhile isDigitChar
  match afterInt with
  | '.' :: rest =>
      let fracDigits := rest.takeWhile isDigitChar
      let afterFrac := rest.dropWhile isDigitChar
      if fracDigits.isEmpty then none
      else
        match parseQSuffix afterFrac with
        | none => none
        | some suf => some ⟨neg, intDigits, fracDigits, suf⟩
  | _ =>
      if intDigits.isEmpty then none
      else
        match parseQSuffix afterInt with
        | none => none
        | some suf => some ⟨neg, intDigits, [], suf⟩

/-- A quantity is positive when it is unsigned and some digit is nonzero. -/
def Quantity.isPositive (q : Quantity) : Bool :=
  !q.neg && (q.intDigits.any (fun c => c ≠ '0') || q.fracDigits.any (fun c => c ≠ '0'))

def digitsToNat (l : List Char) : Nat :=
  l.foldl (fun acc c => acc * 10 + (c.toNat - '0'.toNat)) 0

/-- Numeric multiplier of a magnitude suffix, as an exact fraction
(numerator, denominator). -/
def QSuffix.toFrac : QSuffix → Nat × Nat
  | .unit => (1, 1)
  | .n => (1, 1000000000)
  | .u => (1, 1000000)
  | .m => (1, 1000)
  | .k => (1000, 1)
  | .M => (1000000, 1)
  | .G => (1000000000, 1)
  | .T => (1000000000000, 1)
  | .P => (1000000000000000, 1)
  | .E => (1000000000000000000, 1)
  | .Ki => (1024, 1)
  | .Mi => (1048576, 1)
  | .Gi => (1073741824, 1)
  | .Ti => (1099511627776, 1)
  | .Pi => (1125899906842624, 1)
  | .Ei => (1152921504606846976, 1)

/-- Exact numeric value of a quantity as a signed fraction
(numerator, denominator). -/
def Quantity.toFrac (q : Quantity) : Int × Nat :=
  let digitsVal : Nat :=
    digitsToNat q.intDigits * 10 ^ q.fracDigits.length + digitsToNat q.fracDigits
  let num : Int :=
    (if q.neg then -(digitsVal : Int) else (digitsVal : Int)) * (q.suffix.toFrac.1 : Int)
  (num, 10 ^ q.fracDigits.length * q.suffix.toFrac.2)

/-- Exact numeric equality of two quantities (`Cmp(..) == 0`), by
cross-multiplication. -/
def Quantity.sameValue (a b : Quantity) : Bool :=
  a.toFrac.1 * (b.toFrac.2 : Int) == b.toFrac.1 * (a.toFrac.2 : Int)

/-! ## DNS-1123 name validation

These embed the two regular expressions in `install.go`:
`dns1123LabelRegex  = ^[a-z0-9]([-a-z0-9]*[a-z0-9])?$` and
`dns1123DomainRegex = ^[a-z0-9]([-a-z0-9]*[a-z0-9])?(\.[a-z0-9]([-a-z0-9]*[a-z0-9])?)*$`. -/

def isLowerAlnum (c : Char) : Bool :=
  ('a' ≤ c && c ≤ 'z') || ('0' ≤ c && c ≤ '9')

def isLabelChar (c : Char) : Bool := isLowerAlnum c || c == '-'

/-- Membership in the DNS-1123 label language: nonempty, every character a
lower-case alphanumeric or dash, first and last alphanumeric. -/
def dns1123LabelChars (l : List Char) : Bool :=
  match l, l.getLast? with
  | c :: _, some d => isLowerAlnum c && l.all isLabelChar && isLowerAlnum d
  | _, _ => false

def dns1123Label (s : String) : Bool := dns1123LabelChars s.toList

/-- Split a character list on dots, keeping empty segments (the
behaviour of splitting a string on `"."`). -/
def splitOnDot : List Char → List (List Char)
  | [] => [[]]
  | c :: rest =>
      if c = '.' then [] :: splitOnDot rest
      else
        match splitOnDot rest with
        | [] => [[c]]
        | g :: gs => (c :: g) :: gs

/-- Membership in the DNS-1123 subdomain language: one or more labels
joined by dots. -/
def dns1123Domain (s : String) : Bool :=
  (splitOnDot s.toList).all dns1123LabelChars

/-! ## Identity labels and well-known names

Modelled from the spec: the label constants live in the surrounding CLI
package, outside the embedded file.  The spec fixes their shape: each
topology has one fixed identity key/value pair, the two topology schemes
are mutually exclusive, and the per-node agent set carries its own
node-identity pair distinct from both. -/

def TridentLabelKey : String := "app"
def TridentLabelValue : String := "trident.netapp.io"
def TridentCSILabelKey : String := "app"
def TridentCSILabelValue : String := "controller.csi.trident.netapp.io"
def TridentNodeLabelKey : String := "app"
def TridentNodeLabelValue : String := "node.csi.trident.netapp.io"

/-- Modelled from the spec: the control-plane container's well-known name
(`tridentconfig.ContainerTrident`). -/
def ContainerTrident : String := "trident"

/-! ## The installation request -/

/-- The immutable per-run configuration: the CLI flags and processed
arguments read by `installTrident`.  `k8sTimeoutNs` is the
`k8s-timeout` duration in nanoseconds (the underlying `time.Duration`
integer). -/
structure Config where
  csi : Bool
  dryRun : Bool
  useYAML : Bool
  useKubernetesRBAC : Bool
  tridentPodNamespace : String
  pvcName : String
  pvName : String
  volumeName : String
  volumeSize : String
  k8sTimeoutNs : Nat

/-- `appLabelKey`, as set by `processInstallationArguments`. -/
def appLabelKey (cfg : Config) : String :=
  if cfg.csi then TridentCSILabelKey else TridentLabelKey

/-- `appLabelValue`, as set by `processInstallationArguments`. -/
def appLabelValue (cfg : Config) : String :=
  if cfg.csi then TridentCSILabelValue else TridentLabelValue

/-- `appLabel`, the combined `key=value` selector string. -/
def appLabel (cfg : Config) : String :=
  appLabelKey cfg ++ "=" ++ appLabelValue cfg

/-- `validateInstallationArguments`: namespace must be a DNS-1123 label,
PVC and PV names DNS-1123 subdomains. -/
inductive ArgError
  | invalidNamespaceName (name : String)
  | invalidPVCName (name : String)
  | invalidPVName (name : String)
deriving DecidableEq

def validateInstallationArguments (cfg : Config) : Except ArgError Unit :=
  if ¬ dns1123Label cfg.tridentPodNamespace then
    .error (.invalidNamespaceName cfg.tridentPodNamespace)
  else if ¬ dns1123Domain cfg.pvcName then
    .error (.invalidPVCName cfg.pvcName)
  else if ¬ dns1123Domain cfg.pvName then
    .error (.invalidPVName cfg.pvName)
  else
    .ok ()

/-! ## Cluster object state -/

/-- Go map indexing returns the empty string for a missing key. -/
def lookupLabel (l : List (String × String)) (k : String) : String :=
  match l.find? (fun p => p.1 == k) with
  | some p => p.2
  | none => ""

/-- The parts of a fetched PVC that the installer inspects.  `labels` is
`none` when the object's label map is nil. -/
structure PVCInfo where
  phase : ClaimPhase
  volumeName : String
  labels : Option (List (String × String))
deriving DecidableEq

/-- The parts of a fetched PV that the installer inspects.  `claimRef` is
the bound claim's (name, namespace); `capacity` the storage capacity. -/
structure PVInfo where
  phase : VolumePhase
  claimRef : Option (String × String)
  labels : Option (List (String × String))
  capacity : Option Quantity
deriving DecidableEq

/-- The parts of a pod that the readiness poller inspects. -/
structure PodInfo where
  name : String
  phase : String
  message : String
deriving DecidableEq

/-- The access information of a backend-allocated volume
(`storage.VolumeConfig.AccessInfo`), plus the derived CHAP secret name
(`volume.ConstructExternal().GetCHAPSecretName()`, computed outside the
embedded file and therefore carried as a field). -/
structure Volume where
  nfsServerIP : String
  nfsPath : String
  iscsiTargetPortal : String
  iscsiTargetIQN : String
  iscsiLunNumber : Int
  iscsiTargetSecret : String
  iscsiUsername : String
  iscsiInitiatorSecret : String
  chapSecretName : String
deriving DecidableEq

/-- A loaded storage backend: its name, its pools (only presence and
count are consulted), its protocol, and the (oracle) outcome of
`AddVolume`. -/
structure Backend where
  name : String
  pools : List String
  protocol : String
  addVolume : Except Unit Volume

/-- A workload manifest loaded from a user override file: object labels,
pod-template labels, and the (name, image) list of its containers.
A nil Go label map and an empty one agree on every lookup here, so a
plain list suffices. -/
structure WorkloadObject where
  labels : List (String × String)
  templateLabels : List (String × String)
  containers : List (String × String)
deriving DecidableEq

/-- A service manifest loaded from a user override file. -/
structure ServiceFile where
  labels : List (String × String)
deriving DecidableEq

/-- A PVC manifest loaded from a user override file. -/
structure PVCFile where
  labels : List (String × String)
  name : String
  namespaceName : String
deriving DecidableEq

/-- The user-override files whose presence gates a validate-then-submit
branch. -/
inductive FileId
  | pvcF
  | deploymentF
  | serviceF
  | statefulSetF
  | daemonSetF
deriving DecidableEq

/-- The shape of the rendered PV manifest, chosen by `createPV` from the
populated access-info fields: `GetNFSPVYAML`, `GetCHAPISCSIPVYAML` or
`GetISCSIPVYAML`, with the arguments each renderer receives. -/
inductive PVManifest
  | nfs (pvName size pvcName ns server path labelValue : String)
  | iscsiCHAP (pvName size pvcName ns secretName portal iqn : String)
      (lun : Int) (labelValue : String)
  | iscsi (pvName size pvcName ns portal iqn : String)
      (lun : Int) (labelValue : String)
deriving DecidableEq

/-- Observable events of a run.  Mutation events record every *attempted*
create/delete call against the cluster or the UCP service; the
non-mutating events record the driver pre-flight and the capacity
warnings. -/
inductive Event
  | loadDriverAttempted
  | readBackendConfig
  | warnPVSizeUnknown
  | warnPVSizeMismatch
  | createNamespace
  | deleteClusterRoleBinding
  | deleteClusterRole
  | deleteServiceAccount
  | removeFromSCC
  | ucpRemoveRoleFromAccount
  | ucpDeleteRole
  | createServiceAccount
  | createClusterRole
  | createClusterRoleBinding
  | addToSCC
  | ucpCreateRole
  | ucpAddRoleToAccount
  | createPVC
  | createSecret (name : String)
  | createPV (manifest : PVManifest)
  | createDeployment
  | createService
  | createStatefulSet
  | createDaemonSet
deriving DecidableEq

/-- Events that mutate cluster (or UCP) state. -/
def Event.isMutation : Event → Bool
  | .loadDriverAttempted => false
  | .readBackendConfig => false
  | .warnPVSizeUnknown => false
  | .warnPVSizeMismatch => false
  | _ => true

/-- The RBAC teardown attempts of `removeRBACObjects`. -/
def Event.isRBACDelete : Event → Bool
  | .deleteClusterRoleBinding => true
  | .deleteClusterRole => true
  | .deleteServiceAccount => true
  | .removeFromSCC => true
  | .ucpRemoveRoleFromAccount => true
  | .ucpDeleteRole => true
  | _ => false

/-- The RBAC creation attempts of `createRBACObjects`. -/
def Event.isRBACCreate : Event → Bool
  | .createServiceAccount => true
  | .createClusterRole => true
  | .createClusterRoleBinding => true
  | .addToSCC => true
  | .ucpCreateRole => true
  | .ucpAddRoleToAccount => true
  | _ => false

/-- The workload-object submission attempts. -/
def Event.isWorkloadCreate : Event → Bool
  | .createDeployment => true
  | .createService => true
  | .createStatefulSet => true
  | .createDaemonSet => true
  | _ => false

/-- Installation errors.  Each constructor embeds one `fmt.Errorf` site of
the source and carries the data interpolated into its message.  The
`reported` rational of the three wait-timeout constructors is the number
printed in the failure report: for the PVC wait the source formats the
raw `time.Duration` with `%d` (its nanosecond count); the pod and REST
waits format `k8sTimeout.Seconds()`. -/
inductive ValErr
  | loadFailed
  | badLabel (k v : String)
  | badPodLabel (k v : String)
  | missingContainer (name : String)
  | pvcBadName (expected : String)
  | pvcBadNamespace (expected : String)
deriving DecidableEq

/-- The errors `createPV` can return (before `installTrident` wraps them
in its own could-not-create-PV message). -/
inductive PVErr
  | noStoragePools (backendName : String)
  | couldNotAddVolume
  | chapMinVersion
  | chapSecretCheckFailed
  | chapSecretCreateFailed
  | unrecognizedVolumeType
  | pvCreateFailed (name : String)
deriving DecidableEq

inductive Err
  | volumeSizeInvalid (size : String)
  | couldNotCheckDeployment
  | alreadyInstalled (ns : String)
  | csiVersionTooOld
  | couldNotCheckStatefulSet
  | csiAlreadyInstalled (ns : String)
  | couldNotCheckNamespace (ns : String)
  | couldNotCheckPVC (name : String)
  | couldNotGetPVC (name : String)
  | pvcLost (name : String)
  | pvcBoundToOtherPV (pvcName pvName : String)
  | pvcMissingLabel (name label : String)
  | couldNotCheckPV (name : String)
  | couldNotGetPV (name : String)
  | pvReleased (name : String)
  | pvFailed (name : String)
  | pvBoundToOtherPVC (pvName pvcName : String)
  | pvBoundToOtherNamespace (pvName ns : String)
  | pvMissingLabel (name label : String)
  | setupDirMissing
  | backendConfigMissing
  | backendConfigUnreadable
  | backendDriverFailed
  | couldNotCreateNamespace (ns : String)
  | couldNotCleanPriorArtifacts
  | couldNotCreateServiceAccount
  | couldNotCreateClusterRole
  | couldNotCreateClusterRoleBinding
  | couldNotModifySCC
  | couldNotCreateUCPRole
  | couldNotAddUCPRoleToAccount
  | correctPVCFile (inner : ValErr)
  | couldNotCreatePVC (name : String)
  | correctDeploymentFile (inner : ValErr)
  | couldNotCreateDeployment
  | correctServiceFile (inner : ValErr)
  | couldNotCreateService
  | correctStatefulSetFile (inner : ValErr)
  | couldNotCreateStatefulSet
  | correctDaemonSetFile (inner : ValErr)
  | couldNotCreateDaemonSet
  | missingBackend
  | couldNotCreatePV (name : String) (inner : PVErr)
  | pvcNotBound (name : String) (reported : Rat)
  | podNotRunning (reported : Rat) (lastPhase lastMessage : Option String)
  | restNotUpLogsHint (reported : Rat)
deriving DecidableEq

/-- The oracle environment: the cluster's observable state and the
outcome of every call to an external collaborator.  `opSucceeds` decides
which attempted mutations succeed. -/
structure Env where
  version : SemVer
  flavor : Flavor
  /-- Modelled from the spec: outcome of the CSI minimum-version
  pre-check (`client.Version().AtLeast(minCSIVersion)`); the floor
  constant lives outside the embedded file. -/
  csiMinVersionOk : Bool
  /-- `isTridentInstalled`: error, or the namespace of a prior install. -/
  deploymentInstalledCheck : Except Unit (Option String)
  /-- `isCSITridentInstalled`. -/
  statefulSetInstalledCheck : Except Unit (Option String)
  namespaceCheck : Except Unit Bool
  pvcExistsCheck : Except Unit Bool
  pvcGet : Except Unit PVCInfo
  pvExistsCheck : Except Unit Bool
  pvGet : Except Unit PVInfo
  setupDirExists : Bool
  backendConfigExists : Bool
  backendConfigReadable : Bool
  backendFactory : Except Unit Backend
  opSucceeds : Event → Bool
  secrets : List String
  secretCheckOk : Bool
  fileExists : FileId → Bool
  pvcFile : Except Unit PVCFile
  deploymentFile : Except Unit WorkloadObject
  serviceFile : Except Unit ServiceFile
  statefulSetFile : Except Unit WorkloadObject
  daemonSetFile : Except Unit WorkloadObject
  pvcBoundNow : Bool
  pvcBoundWithinTimeout : Bool
  podRunningWithinTimeout : Option PodInfo
  lastSeenPod : Option PodInfo
  restUpWithinTimeout : Bool

/-! ## The orchestrator -/

/-- Sequencing of fallible, event-producing steps: stop at the first
error, concatenate the traces. -/
def bindE {α β : Type} (x : Except Err α × List Event)
    (f : α → Except Err β × List Event) : Except Err β × List Event :=
  match x with
  | (.error err, t) => (.error err, t)
  | (.ok a, t) =>
      match f a with
      | (r, t') => (r, t ++ t')

/-- One attempted mutation: record the event, succeed or fail as the
environment dictates. -/
def attemptOp (e : Env) (ev : Event) (failErr : Err) :
    Except Err Unit × List Event :=
  if e.opSucceeds ev then (.ok (), [ev]) else (.error failErr, [ev])

/-- The `%3.2f`-formatted `k8sTimeout.Seconds()` value (exact rational,
abstracting the float). -/
def timeoutSeconds (cfg : Config) : Rat :=
  (cfg.k8sTimeoutNs : Rat) / 1000000000

/-- The topology-specific already-installed pre-check plus (for CSI) the
CSI minimum-version check, from the head of `installTrident`. -/
def modeChecks (cfg : Config) (e : Env) : Except Err Unit :=
  if cfg.csi = false then
    match e.deploymentInstalledCheck with
    | .error _ => .error .couldNotCheckDeployment
    | .ok (some ns) => .error (.alreadyInstalled ns)
    | .ok none => .ok ()
  else
    if ¬ e.csiMinVersionOk then .error .csiVersionTooOld
    else
      match e.statefulSetInstalledCheck with
      | .error _ => .error .couldNotCheckStatefulSet
      | .ok (some ns) => .error (.csiAlreadyInstalled ns)
      | .ok none => .ok ()

/-- `client.CheckNamespaceExists`. -/
def namespaceProbe (cfg : Config) (e : Env) : Except Err Bool :=
  match e.namespaceCheck with
  | .error _ => .error (.couldNotCheckNamespace cfg.tridentPodNamespace)
  | .ok b => .ok b

/-- `pvc.Labels == nil || pvc.Labels[appLabelKey] != appLabelValue`,
negated: the PVC carries the expected identity label. -/
def pvcHasLabel (cfg : Config) (labels : Option (List (String × String))) : Bool :=
  match labels with
  | none => false
  | some l => lookupLabel l (appLabelKey cfg) == appLabelValue cfg

/-- The PVC existence/compatibility probe of `installTrident`
(lines checking phase Lost, Bound-to-other-PV, and the identity label).
Returns whether the PVC exists. -/
def pvcProbe (cfg : Config) (e : Env) : Except Err Bool :=
  match e.pvcExistsCheck with
  | .error _ => .error (.couldNotCheckPVC cfg.pvcName)
  | .ok false => .ok false
  | .ok true =>
      match e.pvcGet with
      | .error _ => .error (.couldNotGetPVC cfg.pvcName)
      | .ok pvc =>
          if pvc.phase = .lost then .error (.pvcLost cfg.pvcName)
          else if pvc.phase = .bound ∧ pvc.volumeName ≠ cfg.pvName then
            .error (.pvcBoundToOtherPV cfg.pvcName cfg.pvName)
          else if ¬ pvcHasLabel cfg pvc.labels then
            .error (.pvcMissingLabel cfg.pvcName (appLabel cfg))
          else .ok true

/-- Whether an existing PV passes every compatibility check of the probe
below. -/
def pvCompatible (cfg : Config) (pv : PVInfo) : Bool :=
  pv.phase ≠ .released && pv.phase ≠ .failed &&
    (match pv.claimRef with
     | some r =>
         !(pv.phase = .bound) ||
           (r.1 == cfg.pvcName && r.2 == cfg.tridentPodNamespace)
     | none => true) &&
    pvcHasLabel cfg pv.labels

/-- The capacity comparison of the PV probe: a missing or mismatched
capacity is only a warning. -/
def pvCapacityWarnings (q : Quantity) (pv : PVInfo) : List Event :=
  match pv.capacity with
  | none => [.warnPVSizeUnknown]
  | some c => if q.sameValue c then [] else [.warnPVSizeMismatch]

/-- The PV existence/compatibility probe of `installTrident` (phase
Released/Failed, claim reference, identity label, capacity warning).
Returns whether the PV exists. -/
def pvProbe (cfg : Config) (e : Env) (q : Quantity) :
    Except Err Bool × List Event :=
  match e.pvExistsCheck with
  | .error _ => (.error (.couldNotCheckPV cfg.pvName), [])
  | .ok false => (.ok false, [])
  | .ok true =>
      match e.pvGet with
      | .error _ => (.error (.couldNotGetPV cfg.pvName), [])
      | .ok pv =>
          if pv.phase = .released then (.error (.pvReleased cfg.pvName), [])
          else if pv.phase = .failed then (.error (.pvFailed cfg.pvName), [])
          else
            match pv.claimRef with
            | some r =>
                if pv.phase = .bound ∧ r.1 ≠ cfg.pvcName then
                  (.error (.pvBoundToOtherPVC cfg.pvName cfg.pvcName), [])
                else if pv.phase = .bound ∧ r.2 ≠ cfg.tridentPodNamespace then
                  (.error (.pvBoundToOtherNamespace cfg.pvName r.2), [])
                else if ¬ pvcHasLabel cfg pv.labels then
                  (.error (.pvMissingLabel cfg.pvName (appLabel cfg)), [])
                else (.ok true, pvCapacityWarnings q pv)
            | none =>
                if ¬ pvcHasLabel cfg pv.labels then
                  (.error (.pvMissingLabel cfg.pvName (appLabel cfg)), [])
                else (.ok true, pvCapacityWarnings q pv)

/-- `loadStorageDriver`: check the setup directory and backend config
file, read the config, start the driver.  All failures are fatal; nothing
is mutated. -/
def loadStorageDriver (e : Env) : Except Err Backend × List Event :=
  if ¬ e.setupDirExists then (.error .setupDirMissing, [.loadDriverAttempted])
  else if ¬ e.backendConfigExists then
    (.error .backendConfigMissing, [.loadDriverAttempted])
  else if ¬ e.backendConfigReadable then
    (.error .backendConfigUnreadable, [.loadDriverAttempted, .readBackendConfig])
  else
    match e.backendFactory with
    | .error _ => (.error .backendDriverFailed, [.loadDriverAttempted, .readBackendConfig])
    | .ok b => (.ok b, [.loadDriverAttempted, .readBackendConfig])

/-- `removeRBACObjects`: best-effort teardown of the prior install's RBAC
artifacts, returning whether any step failed.  In native mode every
failed step raises the flag; in UCP mode the two role steps only log a
warning (their `anyErrors = true` assignments are commented out in the
source) and only the service-account deletion raises it. -/
def removeRBACObjects (cfg : Config) (e : Env) : Bool × List Event :=
  if cfg.useKubernetesRBAC then
    ((!e.opSucceeds .deleteClusterRoleBinding) ||
       (!e.opSucceeds .deleteClusterRole) ||
       (!e.opSucceeds .deleteServiceAccount) ||
       (e.flavor == .openshift && !e.opSucceeds .removeFromSCC),
     [.deleteClusterRoleBinding, .deleteClusterRole, .deleteServiceAccount] ++
       (if e.flavor = .openshift then [.removeFromSCC] else []))
  else
    (!e.opSucceeds .deleteServiceAccount,
     [.ucpRemoveRoleFromAccount, .ucpDeleteRole, .deleteServiceAccount])

/-- `createRBACObjects`: service account, then (native) cluster role,
cluster role binding and the OpenShift SCC grant, or (UCP) role creation
and role attachment. -/
def createRBACObjects (cfg : Config) (e : Env) : Except Err Unit × List Event :=
  bindE (attemptOp e .createServiceAccount .couldNotCreateServiceAccount) fun _ =>
    if cfg.useKubernetesRBAC then
      bindE (attemptOp e .createClusterRole .couldNotCreateClusterRole) fun _ =>
        bindE (attemptOp e .createClusterRoleBinding .couldNotCreateClusterRoleBinding) fun _ =>
          if e.flavor = .openshift then
            attemptOp e .addToSCC .couldNotModifySCC
          else (.ok (), [])
    else
      bindE (attemptOp e .ucpCreateRole .couldNotCreateUCPRole) fun _ =>
        attemptOp e .ucpAddRoleToAccount .couldNotAddUCPRoleToAccount

/-! ### User-override manifest validators -/

/-- Go's overwrite-as-you-go scan for the container with the well-known
name: the image of the last matching container, `""` if none matches. -/
def tridentContainerImage (containers : List (String × String)) : String :=
  containers.foldl (fun acc c => if c.1 == ContainerTrident then c.2 else acc) ""

/-- `validateTridentDeployment`: identity label on the object and the pod
template, and the well-known container must be defined. -/
def validateTridentDeployment (cfg : Config) (file : Except Unit WorkloadObject) :
    Except ValErr Unit :=
  match file with
  | .error _ => .error .loadFailed
  | .ok d =>
      if lookupLabel d.labels (appLabelKey cfg) ≠ appLabelValue cfg then
        .error (.badLabel (appLabelKey cfg) (appLabelValue cfg))
      else if lookupLabel d.templateLabels (appLabelKey cfg) ≠ appLabelValue cfg then
        .error (.badPodLabel (appLabelKey cfg) (appLabelValue cfg))
      else if tridentContainerImage d.containers = "" then
        .error (.missingContainer ContainerTrident)
      else .ok ()

/-- `validateTridentService`: identity label on the service. -/
def validateTridentService (cfg : Config) (file : Except Unit ServiceFile) :
    Except ValErr Unit :=
  match file with
  | .error _ => .error .loadFailed
  | .ok s =>
      if lookupLabel s.labels (appLabelKey cfg) ≠ appLabelValue cfg then
        .error (.badLabel (appLabelKey cfg) (appLabelValue cfg))
      else .ok ()

/-- `validateTridentStatefulSet`: identity label on the object and pod
template, and the well-known container. -/
def validateTridentStatefulSet (cfg : Config) (file : Except Unit WorkloadObject) :
    Except ValErr Unit :=
  match file with
  | .error _ => .error .loadFailed
  | .ok s =>
      if lookupLabel s.labels (appLabelKey cfg) ≠ appLabelValue cfg then
        .error (.badLabel (appLabelKey cfg) (appLabelValue cfg))
      else if lookupLabel s.templateLabels (appLabelKey cfg) ≠ appLabelValue cfg then
        .error (.badPodLabel (appLabelKey cfg) (appLabelValue cfg))
      else if tridentContainerImage s.containers = "" then
        .error (.missingContainer ContainerTrident)
      else .ok ()

/-- `validateTridentDaemonSet`: the checks compare the *node* identity
label (`TridentNodeLabelKey`/`Value`), but the error messages interpolate
`appLabelKey`/`appLabelValue`, exactly as in the source. -/
def validateTridentDaemonSet (cfg : Config) (file : Except Unit WorkloadObject) :
    Except ValErr Unit :=
  match file with
  | .error _ => .error .loadFailed
  | .ok d =>
      if lookupLabel d.labels TridentNodeLabelKey ≠ TridentNodeLabelValue then
        .error (.badLabel (appLabelKey cfg) (appLabelValue cfg))
      else if lookupLabel d.templateLabels TridentNodeLabelKey ≠ TridentNodeLabelValue then
        .error (.badPodLabel (appLabelKey cfg) (appLabelValue cfg))
      else if tridentContainerImage d.containers = "" then
        .error (.missingContainer ContainerTrident)
      else .ok ()

/-- `validateTridentPVC`: identity label, PVC name and namespace. -/
def validateTridentPVC (cfg : Config) (file : Except Unit PVCFile) :
    Except ValErr Unit :=
  match file with
  | .error _ => .error .loadFailed
  | .ok p =>
      if lookupLabel p.labels (appLabelKey cfg) ≠ appLabelValue cfg then
        .error (.badLabel (appLabelKey cfg) (appLabelValue cfg))
      else if p.name ≠ cfg.pvcName then .error (.pvcBadName cfg.pvcName)
      else if p.namespaceName ≠ cfg.tridentPodNamespace then
        .error (.pvcBadNamespace cfg.tridentPodNamespace)
      else .ok ()

/-! ### Volume bootstrap -/

/-- `createCHAPSecret`: derive the secret name from the volume, check for
an existing secret of that name, and create one only if absent.  Returns
the secret name and the updated secret set. -/
def createCHAPSecret (e : Env) (vol : Volume) (secrets : List String) :
    Except PVErr String × List String × List Event :=
  if ¬ e.secretCheckOk then (.error .chapSecretCheckFailed, secrets, [])
  else if secrets.contains vol.chapSecretName then (.ok vol.chapSecretName, secrets, [])
  else if e.opSucceeds (.createSecret vol.chapSecretName) then
    (.ok vol.chapSecretName, vol.chapSecretName :: secrets,
      [.createSecret vol.chapSecretName])
  else
    (.error .chapSecretCreateFailed, secrets,
      [.createSecret vol.chapSecretName])

/-- The manifest rendered by `GetNFSPVYAML`, with its arguments. -/
def nfsManifest (cfg : Config) (vol : Volume) : PVManifest :=
  .nfs cfg.pvName cfg.volumeSize cfg.pvcName cfg.tridentPodNamespace
    vol.nfsServerIP vol.nfsPath (appLabelValue cfg)

/-- The manifest rendered by `GetCHAPISCSIPVYAML`, with its arguments. -/
def chapManifest (cfg : Config) (vol : Volume) (secretName : String) : PVManifest :=
  .iscsiCHAP cfg.pvName cfg.volumeSize cfg.pvcName cfg.tridentPodNamespace
    secretName vol.iscsiTargetPortal vol.iscsiTargetIQN vol.iscsiLunNumber
    (appLabelValue cfg)

/-- The manifest rendered by `GetISCSIPVYAML`, with its arguments. -/
def iscsiManifest (cfg : Config) (vol : Volume) : PVManifest :=
  .iscsi cfg.pvName cfg.volumeSize cfg.pvcName cfg.tridentPodNamespace
    vol.iscsiTargetPortal vol.iscsiTargetIQN vol.iscsiLunNumber (appLabelValue cfg)

/-- `createPV`: choose a pool, allocate a volume on the backend, select
the PV manifest shape from the populated access-info fields (network
filesystem first, then block target with or without a CHAP secret), and
submit the PV. -/
def createPV (cfg : Config) (e : Env) (sb : Backend) (secrets : List String) :
    Except PVErr Unit × List String × List Event :=
  if sb.pools = [] then (.error (.noStoragePools sb.name), secrets, [])
  else
    match sb.addVolume with
    | .error _ => (.error .couldNotAddVolume, secrets, [])
    | .ok vol =>
        if vol.nfsServerIP ≠ "" then
          if e.opSucceeds (.createPV (nfsManifest cfg vol)) then
            (.ok (), secrets, [.createPV (nfsManifest cfg vol)])
          else
            (.error (.pvCreateFailed cfg.pvName), secrets,
              [.createPV (nfsManifest cfg vol)])
        else if vol.iscsiTargetPortal ≠ "" then
          if vol.iscsiTargetSecret ≠ "" then
            if ¬ e.version.atLeast ⟨1, 7, 0⟩ then
              (.error .chapMinVersion, secrets, [])
            else
              match createCHAPSecret e vol secrets with
              | (.error err, secrets', t) => (.error err, secrets', t)
              | (.ok secretName, secrets', t) =>
                  if e.opSucceeds (.createPV (chapManifest cfg vol secretName)) then
                    (.ok (), secrets', t ++ [.createPV (chapManifest cfg vol secretName)])
                  else
                    (.error (.pvCreateFailed cfg.pvName), secrets',
                      t ++ [.createPV (chapManifest cfg vol secretName)])
          else
            if e.opSucceeds (.createPV (iscsiManifest cfg vol)) then
              (.ok (), secrets, [.createPV (iscsiManifest cfg vol)])
            else
              (.error (.pvCreateFailed cfg.pvName), secrets,
                [.createPV (iscsiManifest cfg vol)])
        else (.error .unrecognizedVolumeType, secrets, [])

/-! ### Readiness polling -/

/-- The PVC-bound wait: an immediate check, then the bounded-retry loop.
On expiry the source formats the raw `time.Duration` with `%d` in a
message that says "seconds", so the reported number is the nanosecond
count. -/
def waitForPVCBound (cfg : Config) (e : Env) : Except Err Unit :=
  if e.pvcBoundNow then .ok ()
  else if e.pvcBoundWithinTimeout then .ok ()
  else .error (.pvcNotBound cfg.pvcName (cfg.k8sTimeoutNs : Rat))

/-- `waitForTridentPod`: bounded-retry wait for a running pod found by
the topology label.  On expiry the failure report carries
`k8sTimeout.Seconds()` plus the last observed pod phase/message. -/
def waitForTridentPod (cfg : Config) (e : Env) : Except Err PodInfo :=
  match e.podRunningWithinTimeout with
  | some pod => .ok pod
  | none =>
      .error (.podNotRunning (timeoutSeconds cfg)
        (e.lastSeenPod.map (fun p => p.phase))
        (e.lastSeenPod.map (fun p => p.message)))

/-- `waitForRESTInterface`: bounded-retry wait on an exec-ed version
query.  On expiry the failure report carries `k8sTimeout.Seconds()`; the
caller appends the `tridentctl logs` hint. -/
def waitForRESTInterface (cfg : Config) (e : Env) : Except Err Unit :=
  if e.restUpWithinTimeout then .ok ()
  else .error (.restNotUpLogsHint (timeoutSeconds cfg))

/-! ### The mutation phase -/

/-- Namespace creation, skipped when the namespace already exists. -/
def createNamespaceStep (cfg : Config) (e : Env) (namespaceExists : Bool) :
    Except Err Unit × List Event :=
  if namespaceExists then (.ok (), [])
  else attemptOp e .createNamespace (.couldNotCreateNamespace cfg.tridentPodNamespace)

/-- RBAC teardown escalation: any flagged teardown failure becomes the
fatal could-not-clean error. -/
def cleanupStep (cfg : Config) (e : Env) : Except Err Unit × List Event :=
  match removeRBACObjects cfg e with
  | (anyErrors, t) =>
      (if anyErrors then .error .couldNotCleanPriorArtifacts else .ok (), t)

/-- PVC creation, skipped when present; with override mode the file is
validated before submission. -/
def createPVCStep (cfg : Config) (e : Env) (pvcExists : Bool) :
    Except Err Unit × List Event :=
  if pvcExists then (.ok (), [])
  else if cfg.useYAML ∧ e.fileExists .pvcF then
    match validateTridentPVC cfg e.pvcFile with
    | .error err => (.error (.correctPVCFile err), [])
    | .ok () => attemptOp e .createPVC (.couldNotCreatePVC cfg.pvcName)
  else attemptOp e .createPVC (.couldNotCreatePVC cfg.pvcName)

/-- PV creation, skipped when present; needs the pre-loaded backend. -/
def createPVStep (cfg : Config) (e : Env) (pvExists : Bool)
    (backend : Option Backend) : Except Err Unit × List Event :=
  if pvExists then (.ok (), [])
  else
    match backend with
    | none => (.error .missingBackend, [])
    | some sb =>
        match createPV cfg e sb e.secrets with
        | (.error err, _, t) => (.error (.couldNotCreatePV cfg.pvName err), t)
        | (.ok (), _, t) => (.ok (), t)

/-- The deployment submission of the single-replica topology; with
override mode the file is validated first. -/
def submitDeployment (cfg : Config) (e : Env) : Except Err Unit × List Event :=
  if cfg.useYAML ∧ e.fileExists .deploymentF then
    match validateTridentDeployment cfg e.deploymentFile with
    | .error err => (.error (.correctDeploymentFile err), [])
    | .ok () => attemptOp e .createDeployment .couldNotCreateDeployment
  else attemptOp e .createDeployment .couldNotCreateDeployment

/-- The service submission of the CSI topology. -/
def submitService (cfg : Config) (e : Env) : Except Err Unit × List Event :=
  if cfg.useYAML ∧ e.fileExists .serviceF then
    match validateTridentService cfg e.serviceFile with
    | .error err => (.error (.correctServiceFile err), [])
    | .ok () => attemptOp e .createService .couldNotCreateService
  else attemptOp e .createService .couldNotCreateService

/-- The stateful-set submission of the CSI topology. -/
def submitStatefulSet (cfg : Config) (e : Env) : Except Err Unit × List Event :=
  if cfg.useYAML ∧ e.fileExists .statefulSetF then
    match validateTridentStatefulSet cfg e.statefulSetFile with
    | .error err => (.error (.correctStatefulSetFile err), [])
    | .ok () => attemptOp e .createStatefulSet .couldNotCreateStatefulSet
  else attemptOp e .createStatefulSet .couldNotCreateStatefulSet

/-- The daemon-set submission of the CSI topology. -/
def submitDaemonSet (cfg : Config) (e : Env) : Except Err Unit × List Event :=
  if cfg.useYAML ∧ e.fileExists .daemonSetF then
    match validateTridentDaemonSet cfg e.daemonSetFile with
    | .error err => (.error (.correctDaemonSetFile err), [])
    | .ok () => attemptOp e .createDaemonSet .couldNotCreateDaemonSet
  else attemptOp e .createDaemonSet .couldNotCreateDaemonSet

/-- The workload phase: for the single-replica topology one deployment;
for the CSI topology the service, then the stateful set, then the daemon
set, each gated on the previous submission's success. -/
def createWorkloadObjects (cfg : Config) (e : Env) :
    Except Err Unit × List Event :=
  if cfg.csi = false then
    submitDeployment cfg e
  else
    bindE (submitService cfg e) fun _ =>
    bindE (submitStatefulSet cfg e) fun _ =>
    submitDaemonSet cfg e

/-- Everything after the RBAC teardown: RBAC creation, PVC, PV, the three
readiness waits and the workload objects, in source order. -/
def installAfterCleanup (cfg : Config) (e : Env)
    (pvcExists pvExists : Bool) (backend : Option Backend) :
    Except Err Unit × List Event :=
  bindE (createRBACObjects cfg e) fun _ =>
  bindE (createPVCStep cfg e pvcExists) fun _ =>
  bindE (createPVStep cfg e pvExists backend) fun _ =>
  bindE (waitForPVCBound cfg e, []) fun _ =>
  bindE (createWorkloadObjects cfg e) fun _ =>
  bindE (waitForTridentPod cfg e, []) fun _ =>
  (waitForRESTInterface cfg e, [])

/-- The mutation phase of `installTrident`: namespace, RBAC teardown and
escalation, then everything after the cleanup. -/
def installMutate (cfg : Config) (e : Env)
    (namespaceExists pvcExists pvExists : Bool) (backend : Option Backend) :
    Except Err Unit × List Event :=
  bindE (createNamespaceStep cfg e namespaceExists) fun _ =>
  bindE (cleanupStep cfg e) fun _ =>
  installAfterCleanup cfg e pvcExists pvExists backend

/-- The read-only pre-check phase of `installTrident`: mode checks,
namespace/PVC/PV probes, and the storage-driver pre-flight load when the
PV is absent.  Returns the probe facts and the loaded backend. -/
def installPreChecks (cfg : Config) (e : Env) (q : Quantity) :
    Except Err (Bool × Bool × Bool × Option Backend) × List Event :=
  match modeChecks cfg e with
  | .error err => (.error err, [])
  | .ok () =>
      match namespaceProbe cfg e with
      | .error err => (.error err, [])
      | .ok nsExists =>
          match pvcProbe cfg e with
          | .error err => (.error err, [])
          | .ok pvcEx =>
              match pvProbe cfg e q with
              | (.error err, t) => (.error err, t)
              | (.ok true, t) => (.ok (nsExists, pvcEx, true, none), t)
              | (.ok false, t) =>
                  match loadStorageDriver e with
                  | (.error err, t') => (.error err, t ++ t')
                  | (.ok b, t') => (.ok (nsExists, pvcEx, false, some b), t ++ t')

/-- `installTrident`: parse the requested size, run the pre-checks, stop
after them in dry-run mode, otherwise run the mutation phase.  The REST
wait's error is wrapped with the `tridentctl logs` hint (already folded
into its constructor). -/
def installTrident (cfg : Config) (e : Env) : Except Err Unit × List Event :=
  match parseQuantity cfg.volumeSize with
  | none => (.error (.volumeSizeInvalid cfg.volumeSize), [])
  | some q =>
      match installPreChecks cfg e q with
      | (.error err, t) => (.error err, t)
      | (.ok (nsExists, pvcEx, pvEx, backend), t) =>
          if cfg.dryRun then (.ok (), t)
          else
            match installMutate cfg e nsExists pvcEx pvEx backend with
            | (r, t') => (r, t ++ t')

/-- The install command's run sequence: argument validation
(`PersistentPreRun`) aborts before `installTrident` runs. -/
def runInstallCommand (cfg : Config) (e : Env) :
    Except (ArgError ⊕ Err) Unit × List Event :=
  match validateInstallationArguments cfg with
  | .error err => (.error (.inl err), [])
  | .ok () =>
      match installTrident cfg e with
      | (.error err, t) => (.error (.inr err), t)
      | (.ok (), t) => (.ok (), t)

/-! ## Concrete configurations and environments for witnesses -/

/-- The default non-CSI configuration: default names, default 2Gi size,
default 180-second timeout. -/
def cfg0 : Config :=
  { csi := false, dryRun := false, useYAML := false, useKubernetesRBAC := true,
    tridentPodNamespace := "trident", pvcName := "trident", pvName := "trident",
    volumeName := "trident", volumeSize := "2Gi", k8sTimeoutNs := 180000000000 }

/-- A compatible pre-existing PV bound to the intended claim. -/
def compatPV : PVInfo :=
  { phase := .bound, claimRef := some ("trident", "trident"),
    labels := some [("app", "trident.netapp.io")],
    capacity := some ⟨false, ['2'], [], .Gi⟩ }

/-- A benign environment: nothing pre-installed, namespace present, PVC
absent, a compatible PV present (so no driver is needed), every mutation
succeeding, every wait converging. -/
def env0 : Env :=
  { version := ⟨1, 9, 0⟩, flavor := .kubernetes, csiMinVersionOk := true,
    deploymentInstalledCheck := .ok none, statefulSetInstalledCheck := .ok none,
    namespaceCheck := .ok true, pvcExistsCheck := .ok false, pvcGet := .error (),
    pvExistsCheck := .ok true, pvGet := .ok compatPV,
    setupDirExists := false, backendConfigExists := false,
    backendConfigReadable := false, backendFactory := .error (),
    opSucceeds := fun _ => true, secrets := [], secretCheckOk := true,
    fileExists := fun _ => false,
    pvcFile := .error (), deploymentFile := .error (), serviceFile := .error (),
    statefulSetFile := .error (), daemonSetFile := .error (),
    pvcBoundNow := true, pvcBoundWithinTimeout := true,
    podRunningWithinTimeout := some ⟨"trident-pod", "Running", ""⟩,
    lastSeenPod := none, restUpWithinTimeout := true }

/-- The configuration-rejection errors of the argument-validation layer:
bad names (rejected by `validateInstallationArguments`) or an unparsable
size (rejected by the `ParseQuantity` check at the head of
`installTrident`). -/
def Err.isSizeInvalid : Err → Bool
  | .volumeSizeInvalid _ => true
  | _ => false

/-- The argument-rejection errors of the install command: a bad name from
`validateInstallationArguments`, or the unparsable-size error from the
head of `installTrident`. -/
def isArgumentRejection : ArgError ⊕ Err → Bool
  | .inl _ => true
  | .inr err => err.isSizeInvalid

/-- The non-CSI configuration with the volume size `-1Gi` and dry-run
set: a negative size that the quantity parser accepts. -/
def cfgNegativeSize : Config :=
  { cfg0 with volumeSize := "-1Gi", dryRun := true }

/-- The benign environment with a PVC wait that never converges. -/
def envPvcTimeout : Env :=
  { env0 with pvcBoundNow := false, pvcBoundWithinTimeout := false }

/-- The benign environment with a pod wait that never converges. -/
def envPodTimeout : Env :=
  { env0 with podRunningWithinTimeout := none }

/-- The benign environment with a REST wait that never converges. -/
def envRestTimeout : Env :=
  { env0 with restUpWithinTimeout := false }

/-- The UCP-mode configuration (external-authorization RBAC). -/
def cfgUCP : Config := { cfg0 with useKubernetesRBAC := false }

/-- A benign environment in which both UCP role-teardown steps (role
detachment and role deletion) fail, while everything else succeeds. -/
def envUcpRoleTeardownFails : Env :=
  { env0 with opSucceeds := fun ev =>
      match ev with
      | .ucpRemoveRoleFromAccount => false
      | .ucpDeleteRole => false
      | _ => true }

/-- A benign native-mode environment in which the cluster role binding
teardown fails. -/
def envNativeTeardownFails : Env :=
  { env0 with opSucceeds := fun ev =>
      match ev with
      | .deleteClusterRoleBinding => false
      | _ => true }

/-- A benign environment whose pre-existing PVC is in the Lost phase. -/
def envLostPVC : Env :=
  { env0 with
    pvcExistsCheck := .ok true,
    pvcGet := .ok ⟨.lost, "trident", some [("app", "trident.netapp.io")]⟩ }

/-- A volume with network-filesystem access info populated. -/
def volNFS : Volume :=
  { nfsServerIP := "10.0.0.1", nfsPath := "/trident", iscsiTargetPortal := "",
    iscsiTargetIQN := "", iscsiLunNumber := 0, iscsiTargetSecret := "",
    iscsiUsername := "", iscsiInitiatorSecret := "", chapSecretName := "" }

/-- A loaded backend with one pool that allocates `volNFS`. -/
def backendNFS : Backend :=
  { name := "ontapnas", pools := ["aggr1"], protocol := "file",
    addVolume := .ok volNFS }

/-- The dry-run configuration. -/
def cfgDry : Config := { cfg0 with dryRun := true }

/-- A benign environment with no pre-existing PV and a loadable backend
config. -/
def envNoPV : Env :=
  { env0 with
    pvExistsCheck := .ok false,
    pvGet := .error (),
    setupDirExists := true,
    backendConfigExists := true,
    backendConfigReadable := true,
    backendFactory := .ok backendNFS }

/-- A volume with block-target access info and a session (CHAP) secret. -/
def volCHAP : Volume :=
  { nfsServerIP := "", nfsPath := "",
    iscsiTargetPortal := "10.0.0.2:3260",
    iscsiTargetIQN := "iqn.1992-08.com.netapp:sn.x", iscsiLunNumber := 0,
    iscsiTargetSecret := "tsecret", iscsiUsername := "chapuser",
    iscsiInitiatorSecret := "isecret", chapSecretName := "trident-chap-0" }

/-- A loaded backend with one pool that allocates `volCHAP`. -/
def backendCHAP : Backend :=
  { name := "ontapsan", pools := ["aggr1"], protocol := "block",
    addVolume := .ok volCHAP }

/-- A version of the benign no-PV environment on Kubernetes 1.6.2 whose
backend reports the CHAP block volume. -/
def envOldChap : Env :=
  { envNoPV with
    version := ⟨1, 6, 2⟩,
    backendFactory := .ok backendCHAP }

/-- The CSI configuration. -/
def cfgCSI : Config := { cfg0 with csi := true }

/-- A daemon-set override carrying the CSI *app* label instead of the
node label. -/
def dsAppLabelled : WorkloadObject :=
  { labels := [("app", "controller.csi.trident.netapp.io")],
    templateLabels := [("app", "controller.csi.trident.netapp.io")],
    containers := [("trident", "netapp/trident:18.04")] }

/-! ## Infrastructure lemmas -/

theorem bindE_of_error {α β : Type} {x : Except Err α × List Event}
    {f : α → Except Err β × List Event} {err : Err} (h : x.1 = .error err) :
    bindE x f = (.error err, x.2) := by
  rcases x with ⟨r, t⟩
  cases r with
  | error e' => simp at h; simp [bindE, h]
  | ok a => simp at h

theorem bindE_of_ok {α β : Type} {x : Except Err α × List Event}
    {f : α → Except Err β × List Event} {a : α} (h : x.1 = .ok a) :
    bindE x f = ((f a).1, x.2 ++ (f a).2) := by
  rcases x with ⟨r, t⟩
  cases r with
  | error e' => simp at h
  | ok a' => simp at h; subst h; simp [bindE]

theorem bindE_error_cases {α β : Type} {x : Except Err α × List Event}
    {f : α → Except Err β × List Event} {err : Err}
    (h : (bindE x f).1 = .error err) :
    x.1 = .error err ∨ ∃ a, x.1 = .ok a ∧ (f a).1 = .error err := by
  rcases x with ⟨r, t⟩
  cases r with
  | error e' => left; simpa [bindE] using h
  | ok a =>
      right
      refine ⟨a, rfl, ?_⟩
      rcases hfa : f a with ⟨r', t'⟩
      simp [bindE, hfa] at h
      simp [hfa, h]

theorem bindE_events {α β : Type} {p : Event → Prop} {x : Except Err α × List Event}
    {f : α → Except Err β × List Event}
    (hx : ∀ ev ∈ x.2, p ev) (hf : ∀ a, ∀ ev ∈ (f a).2, p ev) :
    ∀ ev ∈ (bindE x f).2, p ev := by
  rcases x with ⟨r, t⟩
  cases r with
  | error e' => simpa [bindE] using hx
  | ok a =>
      rcases hfa : f a with ⟨r', t'⟩
      intro ev hev
      simp [bindE, hfa] at hev
      rcases hev with h | h
      · exact hx ev (by simpa using h)
      · exact hf a ev (by simp [hfa, h])

theorem attemptOp_ok {e : Env} {ev : Event} {failErr : Err}
    (h : e.opSucceeds ev = true) : attemptOp e ev failErr = (.ok (), [ev]) := by
  simp [attemptOp, h]

theorem attemptOp_events {e : Env} {ev : Event} {failErr : Err} :
    (attemptOp e ev failErr).2 = [ev] := by
  unfold attemptOp
  split <;> rfl

/-! ### Event classification -/

theorem removeRBACObjects_events_delete (cfg : Config) (e : Env) :
    ∀ ev ∈ (removeRBACObjects cfg e).2, ev.isRBACDelete = true := by
  intro ev hev
  unfold removeRBACObjects at hev
  repeat' split at hev
  all_goals fin_cases hev <;> rfl

theorem createRBACObjects_events_create (cfg : Config) (e : Env) :
    ∀ ev ∈ (createRBACObjects cfg e).2, ev.isRBACCreate = true := by
  unfold createRBACObjects
  apply bindE_events
  · simp [attemptOp_events]
    rfl
  · intro a
    split
    · apply bindE_events
      · simp [attemptOp_events]
        rfl
      · intro a'
        apply bindE_events
        · simp [attemptOp_events]
          rfl
        · intro a''
          split
          · simp [attemptOp_events]
            rfl
          · simp
    · apply bindE_events
      · simp [attemptOp_events]
        rfl
      · intro a'
        simp [attemptOp_events]
        rfl

theorem createCHAPSecret_events (e : Env) (vol : Volume) (secrets : List String) :
    ∀ ev ∈ (createCHAPSecret e vol secrets).2.2,
      ev = .createSecret vol.chapSecretName := by
  intro ev hev
  unfold createCHAPSecret at hev
  repeat' split at hev
  all_goals simp_all

theorem createPV_events_pred (p : Event → Prop) (cfg : Config) (e : Env)
    (sb : Backend) (secrets : List String)
    (hsec : ∀ n, p (.createSecret n)) (hpv : ∀ m, p (.createPV m)) :
    ∀ ev ∈ (createPV cfg e sb secrets).2.2, p ev := by
  intro ev hev
  have hchap : ∀ vol t, createCHAPSecret e vol secrets = t → ev ∈ t.2.2 → p ev := by
    intro vol t heq hm
    rw [← heq] at hm
    rw [createCHAPSecret_events e vol secrets ev hm]
    apply hsec
  unfold createPV at hev
  split at hev
  · simp at hev
  · split at hev
    · simp at hev
    · split at hev
      · split at hev <;> (simp at hev; rw [hev]; apply hpv)
      · split at hev
        · split at hev
          · split at hev
            · simp at hev
            · split at hev
              · rename_i heq
                exact hchap _ _ heq (by simpa using hev)
              · rename_i secretName secrets' t heq
                split at hev <;>
                  (simp at hev
                   rcases hev with h | h
                   · exact hchap _ _ heq (by simpa using h)
                   · rw [h]; apply hpv)
          · split at hev <;> (simp at hev; rw [hev]; apply hpv)
        · simp at hev

theorem createNamespaceStep_events (cfg : Config) (e : Env) (b : Bool) :
    ∀ ev ∈ (createNamespaceStep cfg e b).2, ev = .createNamespace := by
  intro ev hev
  unfold createNamespaceStep attemptOp at hev
  repeat' split at hev
  all_goals simp_all

theorem createPVCStep_events (cfg : Config) (e : Env) (b : Bool) :
    ∀ ev ∈ (createPVCStep cfg e b).2, ev = .createPVC := by
  intro ev hev
  unfold createPVCStep attemptOp at hev
  repeat' split at hev
  all_goals simp_all

theorem createPVStep_events_pred (p : Event → Prop) (cfg : Config) (e : Env)
    (b : Bool) (backend : Option Backend)
    (hsec : ∀ n, p (.createSecret n)) (hpv : ∀ m, p (.createPV m)) :
    ∀ ev ∈ (createPVStep cfg e b backend).2, p ev := by
  intro ev hev
  unfold createPVStep at hev
  split at hev
  · simp at hev
  · split at hev
    · simp at hev
    · rename_i sb
      split at hev <;>
      · rename_i heq
        have h2 := createPV_events_pred p cfg e sb e.secrets hsec hpv ev
        rw [heq] at h2
        exact h2 (by simpa using hev)

theorem submitDeployment_events (cfg : Config) (e : Env) :
    ∀ ev ∈ (submitDeployment cfg e).2, ev = .createDeployment := by
  intro ev hev
  unfold submitDeployment attemptOp at hev
  repeat' split at hev
  all_goals simp_all

theorem submitService_events (cfg : Config) (e : Env) :
    ∀ ev ∈ (submitService cfg e).2, ev = .createService := by
  intro ev hev
  unfold submitService attemptOp at hev
  repeat' split at hev
  all_goals simp_all

theorem submitStatefulSet_events (cfg : Config) (e : Env) :
    ∀ ev ∈ (submitStatefulSet cfg e).2, ev = .createStatefulSet := by
  intro ev hev
  unfold submitStatefulSet attemptOp at hev
  repeat' split at hev
  all_goals simp_all

theorem submitDaemonSet_events (cfg : Config) (e : Env) :
    ∀ ev ∈ (submitDaemonSet cfg e).2, ev = .createDaemonSet := by
  intro ev hev
  unfold submitDaemonSet attemptOp at hev
  repeat' split at hev
  all_goals simp_all

theorem createWorkloadObjects_events (cfg : Config) (e : Env) :
    ∀ ev ∈ (createWorkloadObjects cfg e).2, ev.isWorkloadCreate = true := by
  unfold createWorkloadObjects
  split
  · intro ev hev
    rw [submitDeployment_events cfg e ev hev]
    rfl
  · apply bindE_events
    · intro ev hev
      rw [submitService_events cfg e ev hev]
      rfl
    · intro a
      apply bindE_events
      · intro ev hev
        rw [submitStatefulSet_events cfg e ev hev]
        rfl
      · intro a' ev hev
        rw [submitDaemonSet_events cfg e ev hev]
        rfl

theorem loadStorageDriver_events (e : Env) :
    ∀ ev ∈ (loadStorageDriver e).2,
      ev = .loadDriverAttempted ∨ ev = .readBackendConfig := by
  intro ev hev
  unfold loadStorageDriver at hev
  repeat' split at hev
  all_goals fin_cases hev <;> simp

theorem pvCapacityWarnings_events (q : Quantity) (pv : PVInfo) :
    ∀ ev ∈ pvCapacityWarnings q pv,
      ev = .warnPVSizeUnknown ∨ ev = .warnPVSizeMismatch := by
  intro ev hev
  unfold pvCapacityWarnings at hev
  repeat' split at hev
  all_goals fin_cases hev <;> simp

theorem pvProbe_events (cfg : Config) (e : Env) (q : Quantity) :
    ∀ ev ∈ (pvProbe cfg e q).2,
      ev = .warnPVSizeUnknown ∨ ev = .warnPVSizeMismatch := by
  intro ev hev
  unfold pvProbe at hev
  repeat' split at hev
  all_goals
    first
      | (exact pvCapacityWarnings_events q _ ev (by simpa using hev))
      | simp at hev

/-- Every event of the mutation phase satisfies any predicate that holds
on all attempted-mutation event shapes the phase can emit. -/
theorem installMutate_events_pred (p : Event → Prop) (cfg : Config) (e : Env)
    (nsEx pvcEx pvEx : Bool) (backend : Option Backend)
    (hns : p .createNamespace)
    (hdel : ∀ ev, ev.isRBACDelete = true → p ev)
    (hrb : ∀ ev, ev.isRBACCreate = true → p ev)
    (hpvc : p .createPVC)
    (hsec : ∀ n, p (.createSecret n))
    (hpv : ∀ m, p (.createPV m))
    (hwork : ∀ ev, ev.isWorkloadCreate = true → p ev) :
    ∀ ev ∈ (installMutate cfg e nsEx pvcEx pvEx backend).2, p ev := by
  unfold installMutate installAfterCleanup
  apply bindE_events
  · intro ev hev
    rw [createNamespaceStep_events cfg e nsEx ev hev]
    exact hns
  intro a
  apply bindE_events
  · intro ev hev
    unfold cleanupStep at hev
    have hev' : ev ∈ (removeRBACObjects cfg e).2 := by
      rcases hrem : removeRBACObjects cfg e with ⟨fl, t⟩
      rw [hrem] at hev
      simpa using hev
    exact hdel ev (removeRBACObjects_events_delete cfg e ev hev')
  intro a'
  apply bindE_events
  · intro ev hev
    exact hrb ev (createRBACObjects_events_create cfg e ev hev)
  intro a₂
  apply bindE_events
  · intro ev hev
    rw [createPVCStep_events cfg e pvcEx ev hev]
    exact hpvc
  intro a₃
  apply bindE_events
  · exact createPVStep_events_pred p cfg e pvEx backend hsec hpv
  intro a₄
  apply bindE_events
  · intro ev hev
    simp at hev
  intro a₅
  apply bindE_events
  · intro ev hev
    exact hwork ev (createWorkloadObjects_events cfg e ev hev)
  intro a₆
  apply bindE_events
  · intro ev hev
    simp at hev
  intro a₇ ev hev
  simp at hev

/-! ### Benign-path computation -/

theorem bindE_fst_of_ok {α β : Type} {x : Except Err α × List Event}
    {f : α → Except Err β × List Event} {a : α} (h : x.1 = .ok a) :
    (bindE x f).1 = (f a).1 := by
  rw [bindE_of_ok h]

theorem removeRBACObjects_flag_false (cfg : Config) (e : Env)
    (h : ∀ ev, e.opSucceeds ev = true) : (removeRBACObjects cfg e).1 = false := by
  unfold removeRBACObjects
  split <;> simp [h]

theorem cleanupStep_eq (cfg : Config) (e : Env) :
    cleanupStep cfg e =
      (if (removeRBACObjects cfg e).1 then .error .couldNotCleanPriorArtifacts
        else .ok (), (removeRBACObjects cfg e).2) := by
  unfold cleanupStep
  rcases h : removeRBACObjects cfg e with ⟨a, t⟩
  simp

theorem cleanupStep_ok (cfg : Config) (e : Env)
    (h : ∀ ev, e.opSucceeds ev = true) : (cleanupStep cfg e).1 = .ok () := by
  rw [cleanupStep_eq]
  simp [removeRBACObjects_flag_false cfg e h]

theorem createNamespaceStep_ok (cfg : Config) (e : Env) (b : Bool)
    (h : ∀ ev, e.opSucceeds ev = true) :
    (createNamespaceStep cfg e b).1 = .ok () := by
  by_cases hb : b <;> simp [createNamespaceStep, attemptOp, h, hb]

theorem createRBACObjects_ok (cfg : Config) (e : Env)
    (h : ∀ ev, e.opSucceeds ev = true) :
    (createRBACObjects cfg e).1 = .ok () := by
  by_cases hk : cfg.useKubernetesRBAC <;>
    by_cases hf : e.flavor = Flavor.openshift <;>
      simp [createRBACObjects, bindE, attemptOp, h, hk, hf]

theorem createPVCStep_ok (cfg : Config) (e : Env) (b : Bool)
    (hy : cfg.useYAML = false) (h : ∀ ev, e.opSucceeds ev = true) :
    (createPVCStep cfg e b).1 = .ok () := by
  by_cases hb : b <;> simp [createPVCStep, attemptOp, h, hy, hb]

theorem createWorkloadObjects_ok (cfg : Config) (e : Env)
    (hy : cfg.useYAML = false) (h : ∀ ev, e.opSucceeds ev = true) :
    (createWorkloadObjects cfg e).1 = .ok () := by
  by_cases hc : cfg.csi <;>
    simp [createWorkloadObjects, submitDeployment, submitService,
      submitStatefulSet, submitDaemonSet, bindE, attemptOp, h, hy, hc]

theorem installMutate_ok_pvExists (cfg : Config) (e : Env) (nsEx pvcEx : Bool)
    (pod : PodInfo) (hy : cfg.useYAML = false)
    (h : ∀ ev, e.opSucceeds ev = true) (hb : e.pvcBoundNow = true)
    (hpod : e.podRunningWithinTimeout = some pod)
    (hrest : e.restUpWithinTimeout = true) :
    (installMutate cfg e nsEx pvcEx true none).1 = .ok () := by
  have h1 := createNamespaceStep_ok cfg e nsEx h
  have h2 := cleanupStep_ok cfg e h
  have h3 := createRBACObjects_ok cfg e h
  have h4 := createPVCStep_ok cfg e pvcEx hy h
  have h5 : (createPVStep cfg e true none).1 = .ok () := rfl
  have h6 : ((waitForPVCBound cfg e, ([] : List Event))).1 = .ok () := by
    simp [waitForPVCBound, hb]
  have h7 := createWorkloadObjects_ok cfg e hy h
  have h8 : ((waitForTridentPod cfg e, ([] : List Event))).1 = .ok pod := by
    simp [waitForTridentPod, hpod]
  unfold installMutate installAfterCleanup
  simp only [bindE_fst_of_ok h1, bindE_fst_of_ok h2, bindE_fst_of_ok h3,
    bindE_fst_of_ok h4, bindE_fst_of_ok h5, bindE_fst_of_ok h6,
    bindE_fst_of_ok h7, bindE_fst_of_ok h8]
  simp [waitForRESTInterface, hrest]

/-! ### Error classification for argument rejection -/

theorem attemptOp_error_eq {e : Env} {ev : Event} {failErr : Err} {err : Err}
    (h : (attemptOp e ev failErr).1 = .error err) : err = failErr := by
  unfold attemptOp at h
  split at h <;> simp_all

theorem modeChecks_not_size {cfg : Config} {e : Env} {err : Err}
    (h : modeChecks cfg e = .error err) : err.isSizeInvalid = false := by
  unfold modeChecks at h
  repeat' split at h
  all_goals (first | (simp at h; subst h; rfl) | simp_all [Err.isSizeInvalid])

theorem namespaceProbe_not_size {cfg : Config} {e : Env} {err : Err}
    (h : namespaceProbe cfg e = .error err) : err.isSizeInvalid = false := by
  unfold namespaceProbe at h
  repeat' split at h
  all_goals (first | (simp at h; subst h; rfl) | simp_all [Err.isSizeInvalid])

theorem pvcProbe_not_size {cfg : Config} {e : Env} {err : Err}
    (h : pvcProbe cfg e = .error err) : err.isSizeInvalid = false := by
  unfold pvcProbe at h
  repeat' split at h
  all_goals (first | (simp at h; subst h; rfl) | simp_all [Err.isSizeInvalid])

theorem pvProbe_not_size {cfg : Config} {e : Env} {q : Quantity} {err : Err}
    (h : (pvProbe cfg e q).1 = .error err) : err.isSizeInvalid = false := by
  unfold pvProbe at h
  repeat' split at h
  all_goals (first | (simp at h; subst h; rfl) | simp_all [Err.isSizeInvalid])

theorem loadStorageDriver_not_size {e : Env} {err : Err}
    (h : (loadStorageDriver e).1 = .error err) : err.isSizeInvalid = false := by
  unfold loadStorageDriver at h
  repeat' split at h
  all_goals (first | (simp at h; subst h; rfl) | simp_all [Err.isSizeInvalid])

theorem installPreChecks_not_size {cfg : Config} {e : Env} {q : Quantity} {err : Err}
    (h : (installPreChecks cfg e q).1 = .error err) : err.isSizeInvalid = false := by
  unfold installPreChecks at h
  split at h
  · rename_i heq
    simp at h
    subst h
    exact modeChecks_not_size heq
  · split at h
    · rename_i heq
      simp at h
      subst h
      exact namespaceProbe_not_size heq
    · split at h
      · rename_i heq
        simp at h
        subst h
        exact pvcProbe_not_size heq
      · split at h
        · rename_i heq
          simp at h
          subst h
          exact pvProbe_not_size (by rw [heq])
        · simp at h
        · split at h
          · rename_i heq
            simp at h
            subst h
            exact loadStorageDriver_not_size (by rw [heq])
          · simp at h

theorem createNamespaceStep_not_size {cfg : Config} {e : Env} {b : Bool} {err : Err}
    (h : (createNamespaceStep cfg e b).1 = .error err) : err.isSizeInvalid = false := by
  unfold createNamespaceStep attemptOp at h
  repeat' split at h
  all_goals (first | (simp at h; subst h; rfl) | simp at h)

theorem cleanupStep_not_size {cfg : Config} {e : Env} {err : Err}
    (h : (cleanupStep cfg e).1 = .error err) : err.isSizeInvalid = false := by
  rw [cleanupStep_eq] at h
  split at h <;> (first | (simp at h; subst h; rfl) | simp at h)

theorem createRBACObjects_not_size {cfg : Config} {e : Env} {err : Err}
    (h : (createRBACObjects cfg e).1 = .error err) : err.isSizeInvalid = false := by
  unfold createRBACObjects at h
  rcases bindE_error_cases h with h | ⟨a, -, h⟩
  · rw [attemptOp_error_eq h]; rfl
  · split at h
    · rcases bindE_error_cases h with h | ⟨b, -, h⟩
      · rw [attemptOp_error_eq h]; rfl
      · rcases bindE_error_cases h with h | ⟨c, -, h⟩
        · rw [attemptOp_error_eq h]; rfl
        · split at h
          · rw [attemptOp_error_eq h]; rfl
          · simp at h
    · rcases bindE_error_cases h with h | ⟨b, -, h⟩
      · rw [attemptOp_error_eq h]; rfl
      · rw [attemptOp_error_eq h]; rfl

theorem createPVCStep_not_size {cfg : Config} {e : Env} {b : Bool} {err : Err}
    (h : (createPVCStep cfg e b).1 = .error err) : err.isSizeInvalid = false := by
  unfold createPVCStep attemptOp at h
  repeat' split at h
  all_goals (first | (simp at h; subst h; rfl) | simp at h)

theorem createPVStep_not_size {cfg : Config} {e : Env} {b : Bool}
    {backend : Option Backend} {err : Err}
    (h : (createPVStep cfg e b backend).1 = .error err) : err.isSizeInvalid = false := by
  unfold createPVStep at h
  repeat' split at h
  all_goals (first | (simp at h; subst h; rfl) | simp at h)

theorem waitForPVCBound_not_size {cfg : Config} {e : Env} {err : Err}
    (h : waitForPVCBound cfg e = .error err) : err.isSizeInvalid = false := by
  unfold waitForPVCBound at h
  repeat' split at h
  all_goals (first | (simp at h; subst h; rfl) | simp at h)

theorem waitForTridentPod_not_size {cfg : Config} {e : Env} {err : Err}
    (h : waitForTridentPod cfg e = .error err) : err.isSizeInvalid = false := by
  unfold waitForTridentPod at h
  repeat' split at h
  all_goals (first | (simp at h; subst h; rfl) | simp at h)

theorem waitForRESTInterface_not_size {cfg : Config} {e : Env} {err : Err}
    (h : waitForRESTInterface cfg e = .error err) : err.isSizeInvalid = false := by
  unfold waitForRESTInterface at h
  repeat' split at h
  all_goals (first | (simp at h; subst h; rfl) | simp at h)

theorem submitDeployment_not_size {cfg : Config} {e : Env} {err : Err}
    (h : (submitDeployment cfg e).1 = .error err) : err.isSizeInvalid = false := by
  unfold submitDeployment attemptOp at h
  repeat' split at h
  all_goals (first | (simp at h; subst h; rfl) | simp at h)

theorem submitService_not_size {cfg : Config} {e : Env} {err : Err}
    (h : (submitService cfg e).1 = .error err) : err.isSizeInvalid = false := by
  unfold submitService attemptOp at h
  repeat' split at h
  all_goals (first | (simp at h; subst h; rfl) | simp at h)

theorem submitStatefulSet_not_size {cfg : Config} {e : Env} {err : Err}
    (h : (submitStatefulSet cfg e).1 = .error err) : err.isSizeInvalid = false := by
  unfold submitStatefulSet attemptOp at h
  repeat' split at h
  all_goals (first | (simp at h; subst h; rfl) | simp at h)

theorem submitDaemonSet_not_size {cfg : Config} {e : Env} {err : Err}
    (h : (submitDaemonSet cfg e).1 = .error err) : err.isSizeInvalid = false := by
  unfold submitDaemonSet attemptOp at h
  repeat' split at h
  all_goals (first | (simp at h; subst h; rfl) | simp at h)

theorem createWorkloadObjects_not_size {cfg : Config} {e : Env} {err : Err}
    (h : (createWorkloadObjects cfg e).1 = .error err) : err.isSizeInvalid = false := by
  unfold createWorkloadObjects at h
  split at h
  · exact submitDeployment_not_size h
  · rcases bindE_error_cases h with h | ⟨a, -, h⟩
    · exact submitService_not_size h
    · rcases bindE_error_cases h with h | ⟨b, -, h⟩
      · exact submitStatefulSet_not_size h
      · exact submitDaemonSet_not_size h

theorem installAfterCleanup_not_size {cfg : Config} {e : Env}
    {pvcEx pvEx : Bool} {backend : Option Backend} {err : Err}
    (h : (installAfterCleanup cfg e pvcEx pvEx backend).1 = .error err) :
    err.isSizeInvalid = false := by
  unfold installAfterCleanup at h
  rcases bindE_error_cases h with h | ⟨a, -, h⟩
  · exact createRBACObjects_not_size h
  rcases bindE_error_cases h with h | ⟨b, -, h⟩
  · exact createPVCStep_not_size h
  rcases bindE_error_cases h with h | ⟨c, -, h⟩
  · exact createPVStep_not_size h
  rcases bindE_error_cases h with h | ⟨d, -, h⟩
  · exact waitForPVCBound_not_size h
  rcases bindE_error_cases h with h | ⟨f, -, h⟩
  · exact createWorkloadObjects_not_size h
  rcases bindE_error_cases h with h | ⟨g, -, h⟩
  · exact waitForTridentPod_not_size h
  exact waitForRESTInterface_not_size h

theorem installMutate_not_size {cfg : Config} {e : Env}
    {nsEx pvcEx pvEx : Bool} {backend : Option Backend} {err : Err}
    (h : (installMutate cfg e nsEx pvcEx pvEx backend).1 = .error err) :
    err.isSizeInvalid = false := by
  unfold installMutate at h
  rcases bindE_error_cases h with h | ⟨a, -, h⟩
  · exact createNamespaceStep_not_size h
  rcases bindE_error_cases h with h | ⟨b, -, h⟩
  · exact cleanupStep_not_size h
  exact installAfterCleanup_not_size h

/-- After the size parse succeeds, `installTrident` never reports the
size-rejection error again: the `volumeSizeInvalid` constructor is
produced only by the parse check at the head of the function. -/
theorem installTrident_size_error_iff (cfg : Config) (e : Env) :
    (∃ s, (installTrident cfg e).1 = .error (.volumeSizeInvalid s)) ↔
      parseQuantity cfg.volumeSize = none := by
  constructor
  · rintro ⟨s, h⟩
    rcases hq : parseQuantity cfg.volumeSize with - | q
    · rfl
    · exfalso
      unfold installTrident at h
      split at h
      · rename_i heq
        rw [hq] at heq
        simp at heq
      · rename_i q' heq
        split at h
        · rename_i err' t' heq2
          simp at h
          subst h
          have hns := installPreChecks_not_size
            (show (installPreChecks cfg e q').1 = .error (.volumeSizeInvalid s) by
              rw [heq2])
          simp [Err.isSizeInvalid] at hns
        · rename_i nsEx pvcEx pvEx backend t' heq2
          split at h
          · simp at h
          · rcases hm : installMutate cfg e nsEx pvcEx pvEx backend with ⟨r, t₂⟩
            rw [hm] at h
            simp at h
            have hns := installMutate_not_size
              (show (installMutate cfg e nsEx pvcEx pvEx backend).1 =
                  .error (.volumeSizeInvalid s) by rw [hm, h])
            simp [Err.isSizeInvalid] at hns
  · intro hq
    refine ⟨cfg.volumeSize, ?_⟩
    unfold installTrident
    rw [hq]

/-! ## Claims -/

/-- C3, counterexample: with valid names and the volume size `-1Gi`,
argument validation accepts, the size parses to a *negative* (hence
non-positive) quantity, and the install's pre-checks run to successful
completion — refuting "accepts only if the size quantity parses to a
positive value". -/
theorem c3_counterexample :
    validateInstallationArguments cfgNegativeSize = .ok () ∧
      (∃ q, parseQuantity "-1Gi" = some q ∧ q.isPositive = false) ∧
      (installTrident cfgNegativeSize env0).1 = .ok () := by
  refine ⟨by decide, ⟨⟨true, ['1'], [], .Gi⟩, by decide, by decide⟩, by decide⟩

/-- C3 (amended): argument validation accepts iff the namespace matches
the DNS-1123 label grammar, the claim (PVC) and volume (PV) names match
the DNS-1123 subdomain grammar, and the size parses as a quantity — the
sign of the parsed size is not checked; and every rejection happens with
an empty event trace (no cluster object created or deleted). -/
theorem c3_argument_validation (cfg : Config) (e : Env) :
    (validateInstallationArguments cfg = .ok () ↔
      (dns1123Label cfg.tridentPodNamespace = true ∧
        dns1123Domain cfg.pvcName = true ∧ dns1123Domain cfg.pvName = true)) ∧
    ((∃ err, (runInstallCommand cfg e).1 = .error err ∧
        isArgumentRejection err = true) ↔
      ¬ (dns1123Label cfg.tridentPodNamespace = true ∧
          dns1123Domain cfg.pvcName = true ∧ dns1123Domain cfg.pvName = true ∧
          (parseQuantity cfg.volumeSize).isSome = true)) ∧
    (∀ err, (runInstallCommand cfg e).1 = .error err →
      isArgumentRejection err = true → (runInstallCommand cfg e).2 = []) := by
  refine ⟨?_, ?_, ?_⟩
  · unfold validateInstallationArguments
    repeat' split
    all_goals simp_all
  · constructor
    · rintro ⟨err, herr, hrej⟩ hall
      obtain ⟨h1, h2, h3, h4⟩ := hall
      have hv : validateInstallationArguments cfg = .ok () := by
        simp [validateInstallationArguments, h1, h2, h3]
      unfold runInstallCommand at herr
      rw [hv] at herr
      rcases hit : installTrident cfg e with ⟨r, t⟩
      rw [hit] at herr
      cases r with
      | ok a => simp at herr
      | error e2 =>
          simp at herr
          subst herr
          simp [isArgumentRejection] at hrej
          have hs : ∃ s2, e2 = Err.volumeSizeInvalid s2 := by
            cases e2 <;> first | exact ⟨_, rfl⟩ | simp [Err.isSizeInvalid] at hrej
          obtain ⟨s2, rfl⟩ := hs
          have hnone : parseQuantity cfg.volumeSize = none :=
            (installTrident_size_error_iff cfg e).mp ⟨s2, by rw [hit]⟩
          rw [hnone] at h4
          simp at h4
    · intro hnot
      by_cases h1 : dns1123Label cfg.tridentPodNamespace = true
      · by_cases h2 : dns1123Domain cfg.pvcName = true
        · by_cases h3 : dns1123Domain cfg.pvName = true
          · have h4 : parseQuantity cfg.volumeSize = none := by
              rcases hp : parseQuantity cfg.volumeSize with - | q
              · rfl
              · exact absurd ⟨h1, h2, h3, by simp [hp]⟩ hnot
            have hv : validateInstallationArguments cfg = .ok () := by
              simp [validateInstallationArguments, h1, h2, h3]
            refine ⟨.inr (.volumeSizeInvalid cfg.volumeSize), ?_, rfl⟩
            have hit : installTrident cfg e =
                (.error (.volumeSizeInvalid cfg.volumeSize), []) := by
              unfold installTrident
              rw [h4]
            simp [runInstallCommand, hv, hit]
          · refine ⟨.inl (.invalidPVName cfg.pvName), ?_, rfl⟩
            have hv : validateInstallationArguments cfg =
                .error (.invalidPVName cfg.pvName) := by
              simp [validateInstallationArguments, h1, h2, h3]
            simp [runInstallCommand, hv]
        · refine ⟨.inl (.invalidPVCName cfg.pvcName), ?_, rfl⟩
          have hv : validateInstallationArguments cfg =
              .error (.invalidPVCName cfg.pvcName) := by
            simp [validateInstallationArguments, h1, h2]
          simp [runInstallCommand, hv]
      · refine ⟨.inl (.invalidNamespaceName cfg.tridentPodNamespace), ?_, rfl⟩
        have hv : validateInstallationArguments cfg =
            .error (.invalidNamespaceName cfg.tridentPodNamespace) := by
          simp [validateInstallationArguments, h1]
        simp [runInstallCommand, hv]
  · intro err herr hrej
    unfold runInstallCommand at herr ⊢
    cases hv : validateInstallationArguments cfg with
    | error e2 => rfl
    | ok a =>
        rw [hv] at herr
        rcases hit : installTrident cfg e with ⟨r, t⟩
        rw [hit] at herr
        cases r with
        | ok b => simp at herr
        | error e2 =>
            simp at herr ⊢
            subst herr
            simp [isArgumentRejection] at hrej
            have hs : ∃ s2, e2 = Err.volumeSizeInvalid s2 := by
              cases e2 <;> first | exact ⟨_, rfl⟩ | simp [Err.isSizeInvalid] at hrej
            obtain ⟨s2, rfl⟩ := hs
            have hnone : parseQuantity cfg.volumeSize = none :=
              (installTrident_size_error_iff cfg e).mp ⟨s2, by rw [hit]⟩
            have hfull : installTrident cfg e =
                (.error (.volumeSizeInvalid cfg.volumeSize), []) := by
              unfold installTrident
              rw [hnone]
            rw [hfull] at hit
            injection hit with hA hB
            exact hB.symm

/-- C3 witness: the amended acceptance characterization evaluated at the
default configuration. -/
theorem c3_argument_validation_witness :
    validateInstallationArguments cfg0 = .ok () :=
  (c3_argument_validation cfg0 env0).1.mpr (by decide)

/-- C2: at the default 180-second timeout, the PVC-bound wait's timeout
error reports the raw nanosecond count of the `time.Duration`
(180000000000) in a message that says "seconds" — not the elapsed
seconds (180) — while the pod wait and the REST wait report
`k8sTimeout.Seconds()` = 180.  The number reported is therefore not the
timeout expressed in seconds at all three wait sites. -/
theorem c2_timeout_reported_numbers :
    (installTrident cfg0 envPvcTimeout).1 =
      .error (.pvcNotBound "trident" ((180000000000 : Nat) : Rat)) ∧
    ((180000000000 : Nat) : Rat) ≠ (180 : Rat) ∧
    timeoutSeconds cfg0 = (180 : Rat) ∧
    waitForTridentPod cfg0 envPodTimeout =
      .error (.podNotRunning (timeoutSeconds cfg0) none none) ∧
    waitForRESTInterface cfg0 envRestTimeout =
      .error (.restNotUpLogsHint (timeoutSeconds cfg0)) := by
  refine ⟨by decide, by decide, by norm_num [timeoutSeconds, cfg0], rfl, rfl⟩

/-! ### C1: RBAC teardown-before-create -/

theorem Event.rbacCreate_not_delete :
    ∀ ev : Event, ev.isRBACCreate = true → ev.isRBACDelete = false := by
  intro ev h
  cases ev <;> simp_all [Event.isRBACCreate, Event.isRBACDelete]

theorem Event.rbacDelete_not_create :
    ∀ ev : Event, ev.isRBACDelete = true → ev.isRBACCreate = false := by
  intro ev h
  cases ev <;> simp_all [Event.isRBACCreate, Event.isRBACDelete]

theorem Event.workload_not_delete :
    ∀ ev : Event, ev.isWorkloadCreate = true → ev.isRBACDelete = false := by
  intro ev h
  cases ev <;> simp_all [Event.isWorkloadCreate, Event.isRBACDelete]

theorem createNamespaceStep_ok₂ (cfg : Config) {e : Env} {nsEx : Bool}
    (hns : nsEx = true ∨ e.opSucceeds .createNamespace = true) :
    (createNamespaceStep cfg e nsEx).1 = .ok () := by
  by_cases hb : nsEx = true
  · simp [createNamespaceStep, hb]
  · rcases hns with h | h
    · exact absurd h hb
    · simp [createNamespaceStep, attemptOp, hb, h]

theorem createNamespaceStep_events_eq (cfg : Config) (e : Env) (nsEx : Bool) :
    (createNamespaceStep cfg e nsEx).2 =
      if nsEx then [] else [Event.createNamespace] := by
  by_cases hb : nsEx = true <;> simp [createNamespaceStep, attemptOp_events, hb]

theorem installAfterCleanup_no_delete (cfg : Config) (e : Env)
    (pvcEx pvEx : Bool) (backend : Option Backend) :
    ∀ ev ∈ (installAfterCleanup cfg e pvcEx pvEx backend).2,
      ev.isRBACDelete = false := by
  unfold installAfterCleanup
  apply bindE_events
  · intro ev hev
    exact Event.rbacCreate_not_delete ev (createRBACObjects_events_create cfg e ev hev)
  intro a
  apply bindE_events
  · intro ev hev
    rw [createPVCStep_events cfg e pvcEx ev hev]
    rfl
  intro b
  apply bindE_events
  · apply createPVStep_events_pred
    · intro n; rfl
    · intro m; rfl
  intro c
  apply bindE_events
  · intro ev hev
    simp at hev
  intro d
  apply bindE_events
  · intro ev hev
    exact Event.workload_not_delete ev (createWorkloadObjects_events cfg e ev hev)
  intro f
  apply bindE_events
  · intro ev hev
    simp at hev
  intro g ev hev
  simp at hev

/-- C1, counterexample: in the external-authorization (UCP) mode, both
role-teardown steps fail, yet the teardown flag stays `false`, the
install carries on to create new RBAC objects, and the whole run
succeeds — refuting "if any single deletion step fails the whole run
aborts with a could-not-clean error, in both RBAC modes". -/
theorem c1_counterexample :
    removeRBACObjects cfgUCP envUcpRoleTeardownFails =
      (false, [.ucpRemoveRoleFromAccount, .ucpDeleteRole, .deleteServiceAccount]) ∧
    (installTrident cfgUCP envUcpRoleTeardownFails).1 = .ok () ∧
    Event.ucpCreateRole ∈ (installTrident cfgUCP envUcpRoleTeardownFails).2 := by
  refine ⟨by decide, by decide, by decide⟩

/-- C1 (amended): on a fresh install the RBAC teardown attempts all run
before any RBAC creation, and a flagged teardown failure aborts the run
with the could-not-clean error before any RBAC object is created; in
native mode every teardown step (cluster role binding, cluster role,
service account, and the OpenShift SCC edit) raises the flag on failure,
but in UCP mode only the service-account deletion does — failures
detaching or deleting the UCP role are logged and do not abort. -/
theorem c1_rbac_teardown (cfg : Config) (e : Env) (nsEx pvcEx pvEx : Bool)
    (backend : Option Backend) :
    (cfg.useKubernetesRBAC = true →
      ((removeRBACObjects cfg e).1 = true ↔
        (e.opSucceeds .deleteClusterRoleBinding = false ∨
          e.opSucceeds .deleteClusterRole = false ∨
          e.opSucceeds .deleteServiceAccount = false ∨
          (e.flavor = .openshift ∧ e.opSucceeds .removeFromSCC = false)))) ∧
    (cfg.useKubernetesRBAC = false →
      ((removeRBACObjects cfg e).1 = true ↔
        e.opSucceeds .deleteServiceAccount = false)) ∧
    ((nsEx = true ∨ e.opSucceeds .createNamespace = true) →
      (removeRBACObjects cfg e).1 = true →
      (installMutate cfg e nsEx pvcEx pvEx backend).1 =
          .error .couldNotCleanPriorArtifacts ∧
        (∀ ev ∈ (installMutate cfg e nsEx pvcEx pvEx backend).2,
          ev.isRBACCreate = false)) ∧
    ((nsEx = true ∨ e.opSucceeds .createNamespace = true) →
      ∃ t, (installMutate cfg e nsEx pvcEx pvEx backend).2 =
          (if nsEx then [] else [Event.createNamespace]) ++
            (removeRBACObjects cfg e).2 ++ t ∧
        (∀ ev ∈ (removeRBACObjects cfg e).2, ev.isRBACDelete = true) ∧
        (∀ ev ∈ t, ev.isRBACDelete = false)) := by
  refine ⟨?_, ?_, ?_, ?_⟩
  · intro hk
    unfold removeRBACObjects
    simp only [hk, if_true, Bool.or_eq_true, Bool.and_eq_true,
      Bool.not_eq_true', beq_iff_eq]
    tauto
  · intro hk
    unfold removeRBACObjects
    simp [hk, Bool.not_eq_true']
  · intro hns hflag
    have h1 := createNamespaceStep_ok₂ cfg hns
    have hcl1 : (cleanupStep cfg e).1 = .error .couldNotCleanPriorArtifacts := by
      rw [cleanupStep_eq]
      simp [hflag]
    have hmain : installMutate cfg e nsEx pvcEx pvEx backend =
        (.error .couldNotCleanPriorArtifacts,
          (createNamespaceStep cfg e nsEx).2 ++ (cleanupStep cfg e).2) := by
      unfold installMutate
      rw [bindE_of_ok h1, bindE_of_error hcl1]
    rw [hmain]
    refine ⟨rfl, ?_⟩
    intro ev hev
    simp at hev
    rcases hev with h | h
    · rw [createNamespaceStep_events_eq] at h
      by_cases hb : nsEx = true
      · simp [hb] at h
      · simp [hb] at h
        simp [h, Event.isRBACCreate]
    · have h2 : ev ∈ (removeRBACObjects cfg e).2 := by
        rw [cleanupStep_eq] at h
        simpa using h
      exact Event.rbacDelete_not_create ev (removeRBACObjects_events_delete cfg e ev h2)
  · intro hns
    have h1 := createNamespaceStep_ok₂ cfg hns
    by_cases hflag : (removeRBACObjects cfg e).1 = true
    · have hcl1 : (cleanupStep cfg e).1 = .error .couldNotCleanPriorArtifacts := by
        rw [cleanupStep_eq]
        simp [hflag]
      have hmain : installMutate cfg e nsEx pvcEx pvEx backend =
          (.error .couldNotCleanPriorArtifacts,
            (createNamespaceStep cfg e nsEx).2 ++ (cleanupStep cfg e).2) := by
        unfold installMutate
        rw [bindE_of_ok h1, bindE_of_error hcl1]
      refine ⟨[], ?_, removeRBACObjects_events_delete cfg e, ?_⟩
      · rw [hmain]
        simp [createNamespaceStep_events_eq, cleanupStep_eq]
      · intro ev hev
        simp at hev
    · have hcl1 : (cleanupStep cfg e).1 = .ok () := by
        rw [cleanupStep_eq]
        simp [Bool.not_eq_true] at hflag
        simp [hflag]
      have hmain : installMutate cfg e nsEx pvcEx pvEx backend =
          ((installAfterCleanup cfg e pvcEx pvEx backend).1,
            (createNamespaceStep cfg e nsEx).2 ++ ((cleanupStep cfg e).2 ++
              (installAfterCleanup cfg e pvcEx pvEx backend).2)) := by
        unfold installMutate
        rw [bindE_of_ok h1, bindE_of_ok hcl1]
      refine ⟨(installAfterCleanup cfg e pvcEx pvEx backend).2, ?_,
        removeRBACObjects_events_delete cfg e,
        installAfterCleanup_no_delete cfg e pvcEx pvEx backend⟩
      rw [hmain]
      simp [createNamespaceStep_events_eq, cleanupStep_eq]

/-- C1 witness: the amended escalation behaviour evaluated on a native
run whose cluster-role-binding teardown fails. -/
theorem c1_rbac_teardown_witness :
    (installMutate cfg0 envNativeTeardownFails true false true none).1 =
      .error .couldNotCleanPriorArtifacts :=
  ((c1_rbac_teardown cfg0 envNativeTeardownFails true false true none).2.2.1
    (Or.inl rfl) (by decide)).1

/-! ### C4: incompatible PVC aborts before any mutation -/

/-- Helper: the install aborts with the PVC probe's error and an empty
trace when the probe fails. -/
theorem installTrident_of_pvcProbe_error {cfg : Config} {e : Env} {q : Quantity}
    {b : Bool} {err : Err}
    (hq : parseQuantity cfg.volumeSize = some q)
    (hmc : modeChecks cfg e = .ok ())
    (hns : e.namespaceCheck = .ok b)
    (hpp : pvcProbe cfg e = .error err) :
    installTrident cfg e = (.error err, []) := by
  have hnp : namespaceProbe cfg e = .ok b := by simp [namespaceProbe, hns]
  have hpre : installPreChecks cfg e q = (.error err, []) := by
    unfold installPreChecks
    rw [hmc]
    simp [hnp, hpp]
  unfold installTrident
  rw [hq]
  simp [hpre]

/-- C4: a pre-existing claim that is Lost, or Bound to a volume other
than the intended one, or missing the topology's identity label, aborts
the install with the corresponding remediation-naming error and an empty
event trace: nothing is created or deleted. -/
theorem c4_incompatible_pvc_aborts (cfg : Config) (e : Env) (pvc : PVCInfo)
    (hq : (parseQuantity cfg.volumeSize).isSome = true)
    (hmc : modeChecks cfg e = .ok ())
    (hns : ∃ b, e.namespaceCheck = Except.ok b)
    (hpe : e.pvcExistsCheck = .ok true)
    (hpg : e.pvcGet = .ok pvc)
    (hbad : pvc.phase = .lost ∨
      (pvc.phase = .bound ∧ pvc.volumeName ≠ cfg.pvName) ∨
      pvcHasLabel cfg pvc.labels = false) :
    ∃ err, installTrident cfg e = (.error err, []) ∧
      (err = .pvcLost cfg.pvcName ∨
        err = .pvcBoundToOtherPV cfg.pvcName cfg.pvName ∨
        err = .pvcMissingLabel cfg.pvcName (appLabel cfg)) := by
  obtain ⟨q, hq'⟩ := Option.isSome_iff_exists.mp hq
  obtain ⟨b, hns'⟩ := hns
  have hprobe : ∃ err, pvcProbe cfg e = .error err ∧
      (err = .pvcLost cfg.pvcName ∨
        err = .pvcBoundToOtherPV cfg.pvcName cfg.pvName ∨
        err = .pvcMissingLabel cfg.pvcName (appLabel cfg)) := by
    by_cases hl : pvc.phase = .lost
    · refine ⟨.pvcLost cfg.pvcName, ?_, Or.inl rfl⟩
      simp [pvcProbe, hpe, hpg, hl]
    · by_cases hb2 : pvc.phase = .bound ∧ pvc.volumeName ≠ cfg.pvName
      · refine ⟨.pvcBoundToOtherPV cfg.pvcName cfg.pvName, ?_, Or.inr (Or.inl rfl)⟩
        simp [pvcProbe, hpe, hpg, hl, hb2]
      · have h3 : pvcHasLabel cfg pvc.labels = false := by tauto
        refine ⟨.pvcMissingLabel cfg.pvcName (appLabel cfg), ?_,
          Or.inr (Or.inr rfl)⟩
        simp [pvcProbe, hpe, hpg, hl, hb2, h3]
  obtain ⟨err, hpp, hcase⟩ := hprobe
  exact ⟨err, installTrident_of_pvcProbe_error hq' hmc hns' hpp, hcase⟩

/-- C4 witness: a Lost claim aborts the default install with no events. -/
theorem c4_incompatible_pvc_aborts_witness :
    ∃ err, installTrident cfg0 envLostPVC = (.error err, []) ∧
      (err = .pvcLost cfg0.pvcName ∨
        err = .pvcBoundToOtherPV cfg0.pvcName cfg0.pvName ∨
        err = .pvcMissingLabel cfg0.pvcName (appLabel cfg0)) :=
  c4_incompatible_pvc_aborts cfg0 envLostPVC
    ⟨.lost, "trident", some [("app", "trident.netapp.io")]⟩
    (by decide) (by decide) ⟨true, rfl⟩ rfl rfl (Or.inl rfl)

/-! ### C7 and C9: the storage-driver pre-flight -/

/-- Every event of the mutation phase is an attempted mutation. -/
theorem installMutate_events_mutation (cfg : Config) (e : Env)
    (nsEx pvcEx pvEx : Bool) (backend : Option Backend) :
    ∀ ev ∈ (installMutate cfg e nsEx pvcEx pvEx backend).2,
      ev.isMutation = true :=
  installMutate_events_pred (fun ev => ev.isMutation = true) cfg e nsEx pvcEx
    pvEx backend rfl
    (fun ev h => by cases ev <;> simp_all [Event.isRBACDelete, Event.isMutation])
    (fun ev h => by cases ev <;> simp_all [Event.isRBACCreate, Event.isMutation])
    rfl (fun n => rfl) (fun m => rfl)
    (fun ev h => by cases ev <;> simp_all [Event.isWorkloadCreate, Event.isMutation])

theorem loadStorageDriver_attempted (e : Env) :
    Event.loadDriverAttempted ∈ (loadStorageDriver e).2 := by
  unfold loadStorageDriver
  repeat' split
  all_goals simp

/-- C7: in dry-run mode with the target PV absent, the storage driver is
still loaded (its load attempt appears in the trace, and a load failure
is the run's fatal error), and the run stops after the pre-checks with no
mutation event whatsoever. -/
theorem c7_dry_run_still_loads_driver (cfg : Config) (e : Env) (q : Quantity)
    (b pvcEx : Bool)
    (hdry : cfg.dryRun = true)
    (hq : parseQuantity cfg.volumeSize = some q)
    (hmc : modeChecks cfg e = .ok ())
    (hns : e.namespaceCheck = .ok b)
    (hpc : pvcProbe cfg e = .ok pvcEx)
    (hpv : e.pvExistsCheck = .ok false) :
    (∀ ev ∈ (installTrident cfg e).2, ev.isMutation = false) ∧
    Event.loadDriverAttempted ∈ (installTrident cfg e).2 ∧
    (∀ sb, (loadStorageDriver e).1 = .ok sb → (installTrident cfg e).1 = .ok ()) ∧
    (∀ err, (loadStorageDriver e).1 = .error err →
      (installTrident cfg e).1 = .error err) := by
  have hnp : namespaceProbe cfg e = .ok b := by simp [namespaceProbe, hns]
  have hpvp : pvProbe cfg e q = (.ok false, []) := by simp [pvProbe, hpv]
  have hmemld := loadStorageDriver_attempted e
  rcases hld : loadStorageDriver e with ⟨r, t⟩
  rw [hld] at hmemld
  simp at hmemld
  have hdrv : ∀ ev ∈ t, ev = .loadDriverAttempted ∨ ev = .readBackendConfig := by
    intro ev hev
    have h2 := loadStorageDriver_events e ev
    rw [hld] at h2
    exact h2 hev
  cases r with
  | error err =>
      have hpre : installPreChecks cfg e q = (.error err, t) := by
        unfold installPreChecks
        rw [hmc]
        simp [hnp, hpc, hpvp, hld]
      have hins : installTrident cfg e = (.error err, t) := by
        unfold installTrident
        rw [hq]
        simp [hpre]
      rw [hins]
      refine ⟨?_, by simpa using hmemld, ?_, ?_⟩
      · intro ev hev
        simp at hev
        rcases hdrv ev hev with h | h <;> simp [h, Event.isMutation]
      · intro sb hsb
        simp at hsb
      · intro err2 herr2
        simp at herr2
        simp [herr2]
  | ok sb =>
      have hpre : installPreChecks cfg e q = (.ok (b, pvcEx, false, some sb), t) := by
        unfold installPreChecks
        rw [hmc]
        simp [hnp, hpc, hpvp, hld]
      have hins : installTrident cfg e = (.ok (), t) := by
        unfold installTrident
        rw [hq]
        simp [hpre, hdry]
      rw [hins]
      refine ⟨?_, by simpa using hmemld, ?_, ?_⟩
      · intro ev hev
        simp at hev
        rcases hdrv ev hev with h | h <;> simp [h, Event.isMutation]
      · intro sb2 hsb
        rfl
      · intro err2 herr2
        simp at herr2

/-- C7 witness: the dry run with an absent PV records a driver load
attempt. -/
theorem c7_dry_run_still_loads_driver_witness :
    Event.loadDriverAttempted ∈ (installTrident cfgDry envNoPV).2 :=
  (c7_dry_run_still_loads_driver cfgDry envNoPV ⟨false, ['2'], [], .Gi⟩ true false
    rfl (by decide) (by decide) rfl (by decide) rfl).2.1

/-- C9: when the target PV already exists and passes every compatibility
check — its capacity is left entirely unconstrained, so capacity-mismatch
warnings are covered — the storage driver is never loaded and the backend
configuration is never read (the environment's setup-directory, config
file and driver-factory fields are unconstrained too, so the config need
not exist or parse), and the install (or the dry run) completes
successfully. -/
theorem c9_existing_pv_skips_driver (cfg : Config) (e : Env) (q : Quantity)
    (b pvcEx : Bool) (pv : PVInfo) (pod : PodInfo)
    (hq : parseQuantity cfg.volumeSize = some q)
    (hy : cfg.useYAML = false)
    (hmc : modeChecks cfg e = .ok ())
    (hns : e.namespaceCheck = .ok b)
    (hpc : pvcProbe cfg e = .ok pvcEx)
    (hpe : e.pvExistsCheck = .ok true)
    (hpg : e.pvGet = .ok pv)
    (hcompat : pvCompatible cfg pv = true)
    (hops : ∀ ev, e.opSucceeds ev = true)
    (hb : e.pvcBoundNow = true)
    (hpod : e.podRunningWithinTimeout = some pod)
    (hrest : e.restUpWithinTimeout = true) :
    (installTrident cfg e).1 = .ok () ∧
    Event.loadDriverAttempted ∉ (installTrident cfg e).2 ∧
    Event.readBackendConfig ∉ (installTrident cfg e).2 := by
  have hnp : namespaceProbe cfg e = .ok b := by simp [namespaceProbe, hns]
  have hpvp : pvProbe cfg e q = (.ok true, pvCapacityWarnings q pv) := by
    simp only [pvCompatible, Bool.and_eq_true, decide_eq_true_eq] at hcompat
    obtain ⟨⟨⟨h1, h2⟩, h3⟩, h4⟩ := hcompat
    unfold pvProbe
    rw [hpe, hpg]
    rcases hcr : pv.claimRef with - | r
    · simp [h1, h2, h4, hcr]
    · simp only [hcr] at h3
      by_cases hbound : pv.phase = .bound
      · simp [hbound] at h3
        simp [h1, h2, h4, hbound, hcr, h3.1, h3.2]
      · simp [h1, h2, h4, hbound, hcr]
  have hpre : installPreChecks cfg e q =
      (.ok (b, pvcEx, true, none), pvCapacityWarnings q pv) := by
    unfold installPreChecks
    rw [hmc]
    simp [hnp, hpc, hpvp]
  have hwarn : ∀ ev ∈ pvCapacityWarnings q pv,
      ev ≠ Event.loadDriverAttempted ∧ ev ≠ Event.readBackendConfig := by
    intro ev hev
    rcases pvCapacityWarnings_events q pv ev hev with h | h <;> simp [h]
  by_cases hdry : cfg.dryRun = true
  · have hins : installTrident cfg e = (.ok (), pvCapacityWarnings q pv) := by
      unfold installTrident
      rw [hq]
      simp [hpre, hdry]
    rw [hins]
    refine ⟨rfl, ?_, ?_⟩ <;>
      · intro hmem
        simp at hmem
        have := hwarn _ hmem
        simp at this
  · have hmut1 : (installMutate cfg e b pvcEx true none).1 = .ok () :=
      installMutate_ok_pvExists cfg e b pvcEx pod hy hops hb hpod hrest
    rcases hm : installMutate cfg e b pvcEx true none with ⟨r, t⟩
    rw [hm] at hmut1
    simp at hmut1
    have htr : ∀ ev ∈ t, ev.isMutation = true := by
      intro ev hev
      have h2 := installMutate_events_mutation cfg e b pvcEx true none ev
      rw [hm] at h2
      exact h2 hev
    have hins : installTrident cfg e = (.ok (), pvCapacityWarnings q pv ++ t) := by
      unfold installTrident
      rw [hq]
      simp [hpre, hdry, hm, hmut1]
    rw [hins]
    refine ⟨rfl, ?_, ?_⟩
    · intro hmem
      simp at hmem
      rcases hmem with h | h
      · have := hwarn _ h
        simp at this
      · have h2 := htr _ h
        simp [Event.isMutation] at h2
    · intro hmem
      simp at hmem
      rcases hmem with h | h
      · have := hwarn _ h
        simp at this
      · have h2 := htr _ h
        simp [Event.isMutation] at h2

/-- C9 witness: the default install against the compatible pre-existing
PV of the benign environment, whose backend config does not even exist. -/
theorem c9_existing_pv_skips_driver_witness :
    (installTrident cfg0 env0).1 = .ok () ∧
      Event.loadDriverAttempted ∉ (installTrident cfg0 env0).2 ∧
      Event.readBackendConfig ∉ (installTrident cfg0 env0).2 :=
  c9_existing_pv_skips_driver cfg0 env0 ⟨false, ['2'], [], .Gi⟩ true false
    compatPV ⟨"trident-pod", "Running", ""⟩ (by decide) rfl (by decide) rfl
    (by decide) rfl rfl (by decide) (fun ev => rfl) rfl rfl rfl

/-! ### C5: PV manifest selection and CHAP secret idempotency -/

/-- C5: with a usable backend and a CHAP-capable cluster, the PV manifest
shape is selected from the populated access-info fields exactly as the
switch in `createPV` reads: a non-empty network-filesystem server yields
the NFS manifest; a block-target portal with an empty session secret
yields the plain iSCSI manifest; a portal with a non-empty session secret
yields the CHAP manifest after minting the session-credential secret; the
secret is created exactly once across repeated calls with the same
derived name (the second call finds it and skips creation); and a volume
with neither field populated is the fatal unrecognized-volume-type
error. -/
theorem c5_pv_manifest_selection (cfg : Config) (e : Env) (sb : Backend)
    (vol : Volume) (secrets : List String)
    (hpools : sb.pools ≠ [])
    (hvol : sb.addVolume = .ok vol)
    (hver : e.version.atLeast ⟨1, 7, 0⟩ = true)
    (hchk : e.secretCheckOk = true)
    (hops : ∀ ev, e.opSucceeds ev = true) :
    (vol.nfsServerIP ≠ "" →
      createPV cfg e sb secrets =
        (.ok (), secrets, [.createPV (nfsManifest cfg vol)])) ∧
    (vol.nfsServerIP = "" → vol.iscsiTargetPortal ≠ "" →
      vol.iscsiTargetSecret = "" →
      createPV cfg e sb secrets =
        (.ok (), secrets, [.createPV (iscsiManifest cfg vol)])) ∧
    (vol.nfsServerIP = "" → vol.iscsiTargetPortal ≠ "" →
      vol.iscsiTargetSecret ≠ "" →
      secrets.contains vol.chapSecretName = false →
      createPV cfg e sb secrets =
        (.ok (), vol.chapSecretName :: secrets,
          [.createSecret vol.chapSecretName,
            .createPV (chapManifest cfg vol vol.chapSecretName)])) ∧
    (secrets.contains vol.chapSecretName = false →
      createCHAPSecret e vol secrets =
          (.ok vol.chapSecretName, vol.chapSecretName :: secrets,
            [.createSecret vol.chapSecretName]) ∧
        createCHAPSecret e vol (vol.chapSecretName :: secrets) =
          (.ok vol.chapSecretName, vol.chapSecretName :: secrets, [])) ∧
    (vol.nfsServerIP = "" → vol.iscsiTargetPortal = "" →
      createPV cfg e sb secrets = (.error .unrecognizedVolumeType, secrets, [])) := by
  refine ⟨?_, ?_, ?_, ?_, ?_⟩
  · intro h
    simp [createPV, hpools, hvol, h, hops]
  · intro h1 h2 h3
    simp [createPV, hpools, hvol, h1, h2, h3, hops]
  · intro h1 h2 h3 hnotin
    have hnotin' : vol.chapSecretName ∉ secrets := by simpa using hnotin
    have hchap : createCHAPSecret e vol secrets =
        (.ok vol.chapSecretName, vol.chapSecretName :: secrets,
          [.createSecret vol.chapSecretName]) := by
      simp [createCHAPSecret, hchk, hnotin', hops]
    simp [createPV, hpools, hvol, h1, h2, h3, hver, hchap, hops]
  · intro hnotin
    have hnotin' : vol.chapSecretName ∉ secrets := by simpa using hnotin
    constructor
    · simp [createCHAPSecret, hchk, hnotin', hops]
    · simp [createCHAPSecret, hchk]
  · intro h1 h2
    simp [createPV, hpools, hvol, h1, h2]

/-- C5 witness: the CHAP path evaluated concretely — one secret creation
followed by the authenticated-session manifest. -/
theorem c5_pv_manifest_selection_witness :
    createPV cfg0 env0 backendCHAP [] =
      (.ok (), ["trident-chap-0"],
        [.createSecret "trident-chap-0",
          .createPV (chapManifest cfg0 volCHAP "trident-chap-0")]) :=
  (c5_pv_manifest_selection cfg0 env0 backendCHAP volCHAP []
    (by decide) rfl (by decide) rfl (fun ev => rfl)).2.2.1
    rfl (by decide) (by decide) (by decide)

/-! ### C6: CHAP minimum-version abort at volume bootstrap -/

theorem Event.rbacDelete_not_secret_workload :
    ∀ ev : Event, ev.isRBACDelete = true →
      (∀ n, ev ≠ .createSecret n) ∧ ev.isWorkloadCreate = false := by
  intro ev h
  cases ev <;> simp_all [Event.isRBACDelete, Event.isWorkloadCreate]

theorem Event.rbacCreate_not_secret_workload :
    ∀ ev : Event, ev.isRBACCreate = true →
      (∀ n, ev ≠ .createSecret n) ∧ ev.isWorkloadCreate = false := by
  intro ev h
  cases ev <;> simp_all [Event.isRBACCreate, Event.isWorkloadCreate]

/-- C6: a block-target volume with a session secret on a cluster below
the 1.7.0 authenticated-session floor makes the install abort with the
minimum-version error wrapped in the could-not-create-PV message, and the
trace contains no session-credential secret creation and no workload
object submission — in either topology. -/
theorem c6_chap_version_floor (cfg : Config) (e : Env) (q : Quantity)
    (b pvcEx : Bool) (sb : Backend) (vol : Volume)
    (hq : parseQuantity cfg.volumeSize = some q)
    (hdry : cfg.dryRun = false)
    (hy : cfg.useYAML = false)
    (hmc : modeChecks cfg e = .ok ())
    (hns : e.namespaceCheck = .ok b)
    (hpc : pvcProbe cfg e = .ok pvcEx)
    (hpv : e.pvExistsCheck = .ok false)
    (hld : (loadStorageDriver e).1 = .ok sb)
    (hpools : sb.pools ≠ [])
    (hvol : sb.addVolume = .ok vol)
    (hnfs : vol.nfsServerIP = "")
    (hportal : vol.iscsiTargetPortal ≠ "")
    (hsecret : vol.iscsiTargetSecret ≠ "")
    (hver : e.version.atLeast ⟨1, 7, 0⟩ = false)
    (hops : ∀ ev, e.opSucceeds ev = true) :
    (installTrident cfg e).1 =
        .error (.couldNotCreatePV cfg.pvName .chapMinVersion) ∧
      (∀ n, Event.createSecret n ∉ (installTrident cfg e).2) ∧
      (∀ ev ∈ (installTrident cfg e).2, ev.isWorkloadCreate = false) := by
  have hnp : namespaceProbe cfg e = .ok b := by simp [namespaceProbe, hns]
  have hpvp : pvProbe cfg e q = (.ok false, []) := by simp [pvProbe, hpv]
  rcases hldp : loadStorageDriver e with ⟨r, t⟩
  rw [hldp] at hld
  simp at hld
  subst hld
  have hdrv : ∀ ev ∈ t, ev = .loadDriverAttempted ∨ ev = .readBackendConfig := by
    intro ev hev
    have h2 := loadStorageDriver_events e ev
    rw [hldp] at h2
    exact h2 hev
  have hpre : installPreChecks cfg e q = (.ok (b, pvcEx, false, some sb), t) := by
    unfold installPreChecks
    rw [hmc]
    simp [hnp, hpc, hpvp, hldp]
  have hcp : createPV cfg e sb e.secrets = (.error .chapMinVersion, e.secrets, []) := by
    simp [createPV, hpools, hvol, hnfs, hportal, hsecret, hver]
  have hpvs : createPVStep cfg e false (some sb) =
      (.error (.couldNotCreatePV cfg.pvName .chapMinVersion), []) := by
    unfold createPVStep
    simp [hcp]
  have hns1 := createNamespaceStep_ok cfg e b hops
  have hcl := cleanupStep_ok cfg e hops
  have hrb := createRBACObjects_ok cfg e hops
  have hpvcs := createPVCStep_ok cfg e pvcEx hy hops
  have hpvs1 : (createPVStep cfg e false (some sb)).1 =
      .error (.couldNotCreatePV cfg.pvName .chapMinVersion) := by rw [hpvs]
  have hmut : installMutate cfg e b pvcEx false (some sb) =
      (.error (.couldNotCreatePV cfg.pvName .chapMinVersion),
        (createNamespaceStep cfg e b).2 ++ ((cleanupStep cfg e).2 ++
          ((createRBACObjects cfg e).2 ++ ((createPVCStep cfg e pvcEx).2 ++
            (createPVStep cfg e false (some sb)).2)))) := by
    unfold installMutate installAfterCleanup
    rw [bindE_of_ok hns1, bindE_of_ok hcl, bindE_of_ok hrb, bindE_of_ok hpvcs,
      bindE_of_error hpvs1]
  have hins : installTrident cfg e =
      (.error (.couldNotCreatePV cfg.pvName .chapMinVersion),
        t ++ ((createNamespaceStep cfg e b).2 ++ ((cleanupStep cfg e).2 ++
          ((createRBACObjects cfg e).2 ++ ((createPVCStep cfg e pvcEx).2 ++
            (createPVStep cfg e false (some sb)).2))))) := by
    unfold installTrident
    rw [hq]
    simp [hpre, hdry, hmut]
  have hclass : ∀ ev ∈ (installTrident cfg e).2,
      (∀ n, ev ≠ Event.createSecret n) ∧ ev.isWorkloadCreate = false := by
    rw [hins]
    intro ev hev
    simp only [List.mem_append] at hev
    rcases hev with h | h | h | h | h | h
    · rcases hdrv ev h with h2 | h2 <;> simp [h2, Event.isWorkloadCreate]
    · rw [createNamespaceStep_events cfg e b ev h]
      simp [Event.isWorkloadCreate]
    · have h2 : ev ∈ (removeRBACObjects cfg e).2 := by
        have h3 := h
        rw [cleanupStep_eq] at h3
        simpa using h3
      exact Event.rbacDelete_not_secret_workload ev
        (removeRBACObjects_events_delete cfg e ev h2)
    · exact Event.rbacCreate_not_secret_workload ev
        (createRBACObjects_events_create cfg e ev h)
    · rw [createPVCStep_events cfg e pvcEx ev h]
      simp [Event.isWorkloadCreate]
    · rw [hpvs] at h
      simp at h
  refine ⟨by rw [hins], ?_, ?_⟩
  · intro n hmem
    exact absurd rfl ((hclass _ hmem).1 n)
  · intro ev hev
    exact (hclass ev hev).2

/-- C6 witness: the concrete 1.6.2 cluster aborts the CHAP install at the
volume-bootstrap step. -/
theorem c6_chap_version_floor_witness :
    (installTrident cfg0 envOldChap).1 =
      .error (.couldNotCreatePV cfg0.pvName .chapMinVersion) :=
  (c6_chap_version_floor cfg0 envOldChap ⟨false, ['2'], [], .Gi⟩ true false
    backendCHAP volCHAP (by decide) rfl rfl (by decide) rfl (by decide) rfl
    rfl (by decide) rfl rfl (by decide) (by decide) (by decide)
    (fun ev => rfl)).1

/-! ### C8: workload submission order -/

theorem submitDeployment_shape (cfg : Config) (e : Env) :
    submitDeployment cfg e = attemptOp e .createDeployment .couldNotCreateDeployment ∨
      ∃ err, submitDeployment cfg e = (.error (.correctDeploymentFile err), []) := by
  unfold submitDeployment
  split
  · split
    · rename_i err heq
      exact .inr ⟨err, rfl⟩
    · exact .inl rfl
  · exact .inl rfl

theorem submitService_shape (cfg : Config) (e : Env) :
    submitService cfg e = attemptOp e .createService .couldNotCreateService ∨
      ∃ err, submitService cfg e = (.error (.correctServiceFile err), []) := by
  unfold submitService
  split
  · split
    · rename_i err heq
      exact .inr ⟨err, rfl⟩
    · exact .inl rfl
  · exact .inl rfl

theorem submitStatefulSet_shape (cfg : Config) (e : Env) :
    submitStatefulSet cfg e =
        attemptOp e .createStatefulSet .couldNotCreateStatefulSet ∨
      ∃ err, submitStatefulSet cfg e = (.error (.correctStatefulSetFile err), []) := by
  unfold submitStatefulSet
  split
  · split
    · rename_i err heq
      exact .inr ⟨err, rfl⟩
    · exact .inl rfl
  · exact .inl rfl

theorem submitDaemonSet_shape (cfg : Config) (e : Env) :
    submitDaemonSet cfg e = attemptOp e .createDaemonSet .couldNotCreateDaemonSet ∨
      ∃ err, submitDaemonSet cfg e = (.error (.correctDaemonSetFile err), []) := by
  unfold submitDaemonSet
  split
  · split
    · rename_i err heq
      exact .inr ⟨err, rfl⟩
    · exact .inl rfl
  · exact .inl rfl

/-- C8: the single-replica topology submits exactly one deployment
object (none only if its override file fails validation, in which case
the phase errors); the CSI topology attempts the service, then the
stateful set, then the daemon set, in that order — the trace is always a
take-front of that three-event sequence, each later submission is only
attempted after the previous one succeeded, and a fully successful phase
submits exactly the three objects in order. -/
theorem c8_workload_submission_order (cfg : Config) (e : Env) :
    (cfg.csi = false →
      ((createWorkloadObjects cfg e).2 = [] ∨
        (createWorkloadObjects cfg e).2 = [Event.createDeployment]) ∧
      ((createWorkloadObjects cfg e).1 = .ok () →
        (createWorkloadObjects cfg e).2 = [Event.createDeployment])) ∧
    (cfg.csi = true →
      (∃ n, (createWorkloadObjects cfg e).2 =
        List.take n [Event.createService, Event.createStatefulSet,
          Event.createDaemonSet]) ∧
      (Event.createStatefulSet ∈ (createWorkloadObjects cfg e).2 →
        Event.createService ∈ (createWorkloadObjects cfg e).2 ∧
          e.opSucceeds .createService = true) ∧
      (Event.createDaemonSet ∈ (createWorkloadObjects cfg e).2 →
        Event.createStatefulSet ∈ (createWorkloadObjects cfg e).2 ∧
          e.opSucceeds .createStatefulSet = true) ∧
      ((createWorkloadObjects cfg e).1 = .ok () →
        (createWorkloadObjects cfg e).2 =
          [Event.createService, Event.createStatefulSet,
            Event.createDaemonSet])) := by
  constructor
  · intro hc
    have hcw : createWorkloadObjects cfg e = submitDeployment cfg e := by
      unfold createWorkloadObjects
      simp [hc]
    rcases submitDeployment_shape cfg e with h | ⟨v, h⟩
    · by_cases o : e.opSucceeds .createDeployment = true
      · rw [hcw, h, attemptOp_ok o]
        exact ⟨Or.inr rfl, fun _ => rfl⟩
      · have ha : attemptOp e .createDeployment .couldNotCreateDeployment =
            (.error .couldNotCreateDeployment, [.createDeployment]) := by
          simp [attemptOp, o]
        rw [hcw, h, ha]
        exact ⟨Or.inr rfl, fun hok => by simp at hok⟩
    · rw [hcw, h]
      exact ⟨Or.inl rfl, fun hok => by simp at hok⟩
  · intro hc
    have hcw : createWorkloadObjects cfg e =
        bindE (submitService cfg e) fun _ =>
          bindE (submitStatefulSet cfg e) fun _ => submitDaemonSet cfg e := by
      unfold createWorkloadObjects
      simp [hc]
    rcases submitService_shape cfg e with h1 | ⟨v1, h1⟩
    · by_cases o1 : e.opSucceeds .createService = true
      · have ha1 : submitService cfg e = (.ok (), [.createService]) := by
          rw [h1, attemptOp_ok o1]
        rcases submitStatefulSet_shape cfg e with h2 | ⟨v2, h2⟩
        · by_cases o2 : e.opSucceeds .createStatefulSet = true
          · have ha2 : submitStatefulSet cfg e = (.ok (), [.createStatefulSet]) := by
              rw [h2, attemptOp_ok o2]
            rcases submitDaemonSet_shape cfg e with h3 | ⟨v3, h3⟩
            · by_cases o3 : e.opSucceeds .createDaemonSet = true
              · have ha3 : submitDaemonSet cfg e = (.ok (), [.createDaemonSet]) := by
                  rw [h3, attemptOp_ok o3]
                have hall : createWorkloadObjects cfg e =
                    (.ok (),
                      [.createService, .createStatefulSet, .createDaemonSet]) := by
                  rw [hcw]
                  simp [ha1, ha2, ha3, bindE]
                rw [hall]
                exact ⟨⟨3, rfl⟩, fun _ => ⟨by simp, o1⟩, fun _ => ⟨by simp, o2⟩,
                  fun _ => rfl⟩
              · have ha3 : submitDaemonSet cfg e =
                    (.error .couldNotCreateDaemonSet, [.createDaemonSet]) := by
                  rw [h3]
                  simp [attemptOp, o3]
                have hall : createWorkloadObjects cfg e =
                    (.error .couldNotCreateDaemonSet,
                      [.createService, .createStatefulSet, .createDaemonSet]) := by
                  rw [hcw]
                  simp [ha1, ha2, ha3, bindE]
                rw [hall]
                exact ⟨⟨3, rfl⟩, fun _ => ⟨by simp, o1⟩, fun _ => ⟨by simp, o2⟩,
                  fun hok => by simp at hok⟩
            · have hall : createWorkloadObjects cfg e =
                  (.error (.correctDaemonSetFile v3),
                    [.createService, .createStatefulSet]) := by
                rw [hcw]
                simp [ha1, ha2, h3, bindE]
              rw [hall]
              exact ⟨⟨2, rfl⟩, fun _ => ⟨by simp, o1⟩, by simp,
                fun hok => by simp at hok⟩
          · have ha2 : submitStatefulSet cfg e =
                (.error .couldNotCreateStatefulSet, [.createStatefulSet]) := by
              rw [h2]
              simp [attemptOp, o2]
            have hall : createWorkloadObjects cfg e =
                (.error .couldNotCreateStatefulSet,
                  [.createService, .createStatefulSet]) := by
              rw [hcw]
              simp [ha1, ha2, bindE]
            rw [hall]
            exact ⟨⟨2, rfl⟩, fun _ => ⟨by simp, o1⟩, by simp,
              fun hok => by simp at hok⟩
        · have hall : createWorkloadObjects cfg e =
              (.error (.correctStatefulSetFile v2), [.createService]) := by
            rw [hcw]
            simp [ha1, h2, bindE]
          rw [hall]
          exact ⟨⟨1, rfl⟩, by simp, by simp, fun hok => by simp at hok⟩
      · have ha1 : submitService cfg e =
            (.error .couldNotCreateService, [.createService]) := by
          rw [h1]
          simp [attemptOp, o1]
        have hall : createWorkloadObjects cfg e =
            (.error .couldNotCreateService, [.createService]) := by
          rw [hcw]
          simp [ha1, bindE]
        rw [hall]
        exact ⟨⟨1, rfl⟩, by simp, by simp, fun hok => by simp at hok⟩
    · have hall : createWorkloadObjects cfg e =
          (.error (.correctServiceFile v1), []) := by
        rw [hcw]
        simp [h1, bindE]
      rw [hall]
      exact ⟨⟨0, rfl⟩, by simp, by simp, fun hok => by simp at hok⟩

/-- C8 witness: on a fully successful CSI run the three workload objects
are submitted in order. -/
theorem c8_workload_submission_order_witness :
    (createWorkloadObjects cfgCSI env0).2 =
      [Event.createService, Event.createStatefulSet, Event.createDaemonSet] :=
  ((c8_workload_submission_order cfgCSI env0).2 rfl).2.2.2 rfl

/-! ### C10: daemon-set override validation label mismatch -/

/-- C10: the daemon-set override validator compares the node-identity
label pair (`TridentNodeLabelKey`/`Value`) on the object and its pod
template — a different pair from the topology app label checked for the
stateful set (and the other workload objects) — yet on failure its error
carries the app label key/value pair (`appLabelKey`/`appLabelValue`)
rather than the node pair actually required. -/
theorem c10_daemonset_label_mismatch (cfg : Config) (ds ss : WorkloadObject)
    (hcsi : cfg.csi = true) :
    (lookupLabel ds.labels TridentNodeLabelKey ≠ TridentNodeLabelValue →
      validateTridentDaemonSet cfg (.ok ds) =
        .error (.badLabel (appLabelKey cfg) (appLabelValue cfg))) ∧
    ((TridentNodeLabelKey, TridentNodeLabelValue) ≠
      (appLabelKey cfg, appLabelValue cfg)) ∧
    (lookupLabel ss.labels (appLabelKey cfg) ≠ appLabelValue cfg →
      validateTridentStatefulSet cfg (.ok ss) =
        .error (.badLabel (appLabelKey cfg) (appLabelValue cfg))) ∧
    (validateTridentDaemonSet cfg (.ok ds) = .ok () →
      lookupLabel ds.labels TridentNodeLabelKey = TridentNodeLabelValue ∧
        lookupLabel ds.templateLabels TridentNodeLabelKey =
          TridentNodeLabelValue) := by
  refine ⟨?_, ?_, ?_, ?_⟩
  · intro h
    simp [validateTridentDaemonSet, h]
  · simp only [appLabelKey, appLabelValue, hcsi, if_true]
    decide
  · intro h
    simp [validateTridentStatefulSet, h]
  · intro h
    unfold validateTridentDaemonSet at h
    repeat' split at h
    all_goals simp_all

/-- C10 witness: the mislabelled daemon-set override is rejected with an
error that names the app label pair, although the node pair was
checked. -/
theorem c10_daemonset_label_mismatch_witness :
    validateTridentDaemonSet cfgCSI (.ok dsAppLabelled) =
      .error (.badLabel (appLabelKey cfgCSI) (appLabelValue cfgCSI)) :=
  (c10_daemonset_label_mismatch cfgCSI dsAppLabelled dsAppLabelled rfl).1
    (by decide)

end Trident
